import Mathlib

/-!
JellyPotBridge: player probe, Jellyfin session client and instance
coordination.

A shallow embedding of `src/client/JellyPotBridge.go`.

* Machine integers are `Nat`/`Int` with explicit wrap-around. The program is a
  Windows program whose first window class is `PotPlayer64`; `uintptr`, `int`
  and `int64` are modelled at 64 bits (GOARCH=amd64).
* The operating system (window lookup, window enumeration, message sending) is
  an explicit record of oracles, `Os`.
* Go `error` values are a small inductive type; `nil` is `none`.
* The named pipe is a script of connections for the acceptor and a record of
  oracles for the client; both ends report the calls they make.
-/

namespace JellyPotBridge

/-! ## Go values -/

/-- Go `error` values built by the program: a `syscall.Errno`, a plain message,
or a message wrapping another error with the `%w` verb. -/
inductive GoError where
  | errno (code : Nat)
  | text (msg : String)
  | wrap (format : String) (inner : GoError)
  deriving DecidableEq, Repr

/-- The conversion `uintptr(x)`: an unsigned 64-bit machine word. -/
def uintptr (n : Nat) : Nat := n % 2 ^ 64

/-- The conversions `int(u)` and `int64(u)` of an unsigned word: the same 64
bits read in two's complement. -/
def toInt64 (u : Nat) : Int :=
  if u % 2 ^ 64 < 2 ^ 63 then ((u % 2 ^ 64 : Nat) : Int)
  else ((u % 2 ^ 64 : Nat) : Int) - 2 ^ 64

/-- Reduce a mathematical integer to the `int64` the machine stores. -/
def wrapInt64 (x : Int) : Int := (x + 2 ^ 63) % 2 ^ 64 - 2 ^ 63

/-- Go `fmt.Sprintf` restricted to the verbs the program uses (`%s`, `%d`,
`%w`, `%v`); arguments arrive already rendered as strings. A verb with no
argument left prints Go's `%!v(MISSING)` marker. -/
def sprintfAux : List Char → List String → List Char
  | [], _ => []
  | [c], _ => [c]
  | c :: v :: rest, args =>
    if c = '%' then
      match args with
      | a :: more => a.data ++ sprintfAux rest more
      | [] => '%' :: '!' :: v :: ("(MISSING)".data ++ sprintfAux rest [])
    else c :: sprintfAux (v :: rest) args

/-- Go `fmt.Sprintf`. -/
def Sprintf (format : String) (args : List String) : String :=
  ⟨sprintfAux format.data args⟩

/-! ## Constants -/

def WmUser : Nat := 0x0400
def PotGetCurrentTime : Nat := 0x5004
def PotGetPlayStatus : Nat := 0x5006
def TicksPerMillisecond : Int := 10000

/-- Possible window class names for PotPlayer, in lookup order. -/
def PotPlayerClassNames : List String :=
  ["PotPlayer64", "PotPlayer", "PotPlayerMini64", "PotPlayerMini"]

/-! ## Operating system -/

/-- The Windows calls the probe makes. Each `user32` procedure yields its
primary result `r1` and the thread's last-error code read after the call. -/
structure Os where
  /-- The call `FindWindowW(class, NULL)`. -/
  findWindowW : String → Nat × Nat
  /-- The top-level windows in the order `EnumWindows` visits them, each with
  the class name `GetClassNameW` reports for it. -/
  enumWindows : List (Nat × String)
  /-- Whether `SendMessageW` resolves in `user32.dll` (`Find() == nil`). -/
  sendMessageFound : Bool
  /-- The call `SendMessageW(hWnd, msg, wParam, lParam)`. -/
  sendMessageW : Nat → Nat → Nat → Nat → Nat × Nat

/-- Go `(*syscall.LazyProc).Call`: returns `r1` and `lastErr`. The library
documents that the returned error is always non-nil: it is the `syscall.Errno`
read from `GetLastError`, boxed in the `error` interface, also when it is
`Errno(0)`. -/
def Call (raw : Nat × Nat) : Nat × Option GoError :=
  (uintptr raw.1, some (GoError.errno raw.2))

/-- Go `errors.Is(err, syscall.Errno(0))`. -/
def isErrnoZero (err : Option GoError) : Bool :=
  err == some (GoError.errno 0)

/-- Go `syscall.UTF16PtrFromString`: fails on a string holding a NUL. -/
def UTF16PtrFromString (s : String) : Except GoError Unit :=
  if s.data.any (fun ch => ch.toNat == 0) then
    Except.error (GoError.text "invalid argument")
  else Except.ok ()

/-! ## Player probe -/

/-- Playback information from PotPlayer. The `Seconds float64` field, which
nothing in the program reads, is not modelled. -/
structure PotPlayerInfo where
  HWnd : Nat
  Status : Int
  EventName : String
  Milliseconds : Nat
  Ticks : Int
  deriving DecidableEq, Repr

/-- Maps PotPlayer status codes to Jellyfin event names. -/
def getEventName (status : Int) : String :=
  match status with
  | 2 => "timeupdate"
  | 1 => "pause"
  | -1 => "stop"
  | _ => "unknown"

/-- The first loop of `findPotPlayerWindow`: `FindWindowW` on each class name
in turn; `some h` is the early `return hWnd, nil`, `none` is falling out of
the loop. -/
def findByClassNames (os : Os) : List String → Except GoError (Option Nat)
  | [] => Except.ok none
  | cls :: rest =>
    match UTF16PtrFromString cls with
    | Except.error err =>
      Except.error (GoError.wrap "failed to convert class name: %w" err)
    | Except.ok _ =>
      let r := Call (os.findWindowW cls)
      if r.1 ≠ 0 ∧ isErrnoZero r.2 = true then Except.ok (some r.1)
      else findByClassNames os rest

/-- The inner loop of the enumeration callback: `true` when `classNameStr`
equals one of the class names. -/
def classNameMatches (classNameStr : String) : List String → Bool
  | [] => false
  | c :: rest => if classNameStr = c then true else classNameMatches classNameStr rest

/-- The enumeration callback: given the captured `hWnd` it returns the new
captured value and the callback result (0 stops the enumeration, 1 goes on). -/
def enumCallback (hWnd : Nat) (h : Nat) (classNameStr : String) : Nat × Nat :=
  if classNameMatches classNameStr PotPlayerClassNames then (uintptr h, 0)
  else (hWnd, 1)

/-- The call `EnumWindows(cb, 0)`: calls the callback on each window until it returns
0; the result is the captured `hWnd`. -/
def EnumWindows (hWnd : Nat) : List (Nat × String) → Nat
  | [] => hWnd
  | w :: rest =>
    let r := enumCallback hWnd w.1 w.2
    if r.2 = 0 then r.1 else EnumWindows r.1 rest

/-- Locates the PotPlayer window using its class names. -/
def findPotPlayerWindow (os : Os) : Except GoError Nat :=
  match findByClassNames os PotPlayerClassNames with
  | Except.error err => Except.error err
  | Except.ok (some hWnd) => Except.ok hWnd
  | Except.ok none =>
    let hWnd := EnumWindows 0 os.enumWindows
    if hWnd ≠ 0 then Except.ok hWnd
    else Except.error (GoError.text "PotPlayer window not found")

/-- The expression `int64(milliseconds) * TicksPerMillisecond` in `int64`
arithmetic. -/
def ticksOf (milliseconds : Nat) : Int :=
  wrapInt64 (toInt64 milliseconds * TicksPerMillisecond)

/-- Retrieves current playback information from PotPlayer. -/
def getPotPlayerInfo (os : Os) : Except GoError PotPlayerInfo :=
  match findPotPlayerWindow os with
  | Except.error err =>
    Except.error (GoError.wrap "failed to find PotPlayer window: %w" err)
  | Except.ok hWnd =>
    if os.sendMessageFound = false then
      Except.error (GoError.text "failed to get SendMessageW procedure")
    else
      let r := Call (os.sendMessageW hWnd (uintptr WmUser) (uintptr PotGetPlayStatus) 0)
      match r.2 with
      | some err => Except.error (GoError.wrap "failed to get playback status: %w" err)
      | none =>
        let t := Call (os.sendMessageW hWnd (uintptr WmUser) (uintptr PotGetCurrentTime) 0)
        match t.2 with
        | some err =>
          Except.error (GoError.wrap "failed to get current playback time: %w" err)
        | none =>
          Except.ok
            { HWnd := hWnd
              Status := toInt64 r.1
              EventName := getEventName (toInt64 r.1)
              Milliseconds := t.1
              Ticks := ticksOf t.1 }

/-- A machine on which the window is found at once and both queries are
answered (status 2, position 5000 ms) with last-error code 0. -/
def answeringOs : Os :=
  { findWindowW := fun cls => if cls = "PotPlayer64" then (4660, 0) else (0, 0)
    enumWindows := []
    sendMessageFound := true
    sendMessageW := fun _ _ wParam _ => if wParam = PotGetPlayStatus then (2, 0) else (5000, 0) }

/-- A machine on which `FindWindowW` hands back window 7 for `PotPlayer64`
while the last-error code read after the call is 5, and no window is
enumerated. -/
def staleErrorOs : Os :=
  { findWindowW := fun cls => if cls = "PotPlayer64" then (7, 5) else (0, 0)
    enumWindows := []
    sendMessageFound := true
    sendMessageW := fun _ _ _ _ => (0, 0) }

/-- A machine with no directly found window whose enumeration meets an
unrelated window first and a PotPlayer window second. -/
def enumeratingOs : Os :=
  { findWindowW := fun _ => (0, 0)
    enumWindows := [(11, "Shell_TrayWnd"), (12, "PotPlayer"), (13, "PotPlayer64")]
    sendMessageFound := true
    sendMessageW := fun _ _ _ _ => (0, 0) }

/-! ## Jellyfin session client -/

/-- The playback status sent to Jellyfin. -/
structure PlaybackStatusEvent where
  PositionTicks : Int
  PlaybackStartTimeTicks : Int
  PlayMethod : String
  MediaSourceId : String
  CanSeek : Bool
  ItemId : String
  EventName : String
  deriving DecidableEq, Repr

/-- User data within a Jellyfin media item. -/
structure UserData where
  PlaybackPositionTicks : Int
  ItemId : String
  deriving DecidableEq, Repr

/-- A media item from Jellyfin (the Go field `Type` is `ItemType` here). -/
structure MediaItem where
  Id : String
  Name : String
  ItemType : String
  UserData : UserData
  deriving DecidableEq, Repr

/-- The client that talks to the Jellyfin server. The `httpClient` field is
the transport of `Env`. -/
structure JellyPotClient where
  serverUrl : String
  username : String
  password : String
  accessToken : String
  sessionId : String
  userId : String
  deviceName : String
  deviceId : String
  clientName : String
  clientVersion : String
  deriving DecidableEq, Repr

/-- Creates a new client; `gVersion` is a package variable of the program. -/
def NewJellyPotClient (gVersion serverUrl username password deviceId : String) :
    JellyPotClient :=
  { serverUrl := serverUrl
    username := username
    password := password
    accessToken := ""
    sessionId := ""
    userId := ""
    deviceName := "PotPlayer"
    deviceId := deviceId
    clientName := "JellyPot"
    clientVersion := gVersion }

/-- The request body of `Authenticate`. -/
structure authRequest where
  Username : String
  Password : String
  deriving DecidableEq, Repr

/-- The `SessionInfo` object of the authentication response. -/
structure sessionInfo where
  Id : String
  UserId : String
  deriving DecidableEq, Repr

/-- The authentication response. -/
structure authResponse where
  AccessToken : String
  SessionInfo : sessionInfo
  deriving DecidableEq, Repr

/-- An `*http.Request`: method, URL, header and body. -/
structure Request where
  method : String
  url : String
  header : List (String × String)
  body : Option String
  deriving DecidableEq, Repr

/-- Go `Header.Set`: replaces the values of the key by one value. -/
def headerSet (h : List (String × String)) (key value : String) : List (String × String) :=
  (key, value) :: h.filter (fun kv => kv.1 ≠ key)

/-- Go `Header.Get`: the value of the key, if any. -/
def headerGet (h : List (String × String)) (key : String) : Option String :=
  (h.find? (fun kv => kv.1 = key)).map (fun kv => kv.2)

/-- What `httpClient.Do` comes back with: a transport error, or a response
with its status code and body. -/
inductive HttpOutcome where
  | transportError (err : GoError)
  | response (StatusCode : Int) (Body : String)
  deriving DecidableEq, Repr

/-- The trace of a client: every entry into `Authenticate`, and every round
trip of `httpClient.Do` with the request sent and what came back. -/
inductive Event where
  | authenticate
  | roundTrip (req : Request) (out : HttpOutcome)
  deriving DecidableEq, Repr

/-- The libraries and the network the client runs against. `json.Marshal`,
`http.NewRequest` and the JSON decoders are library code and may return an
error; the server answers a request knowing everything that happened
before. -/
structure Env where
  marshalAuthRequest : authRequest → Except GoError String
  marshalEvent : PlaybackStatusEvent → Except GoError String
  /-- The call `http.NewRequest(method, url, body)`: `some err` when it rejects. -/
  NewRequest : String → String → Option GoError
  /-- The call `httpClient.Do(req)`, given the trace so far. -/
  Do : List Event → Request → HttpOutcome
  decodeAuthResponse : String → Except GoError authResponse
  decodeMediaItem : String → Except GoError MediaItem

/-- Adds standard headers required by the Jellyfin API. -/
def setCommonHeaders (c : JellyPotClient) (req : Request) : Request :=
  if c.accessToken = "" then
    { req with header := headerSet req.header "Authorization" (Sprintf
        "MediaBrowser Client=\"%s\", Device=\"%s\", DeviceId=\"%s\", Version=\"%s\""
        [c.clientName, c.deviceName, c.deviceId, c.clientVersion]) }
  else
    { req with header := headerSet req.header "Authorization" (Sprintf
        "MediaBrowser Token=\"%s\", Client=\"%s\", Device=\"%s\", DeviceId=\"%s\", Version=\"%s\""
        [c.accessToken, c.clientName, c.deviceName, c.deviceId, c.clientVersion]) }

/-- Logs into the Jellyfin server and retrieves an access token. Returns the
error (`none` is nil), the client and the trace afterwards. -/
def Authenticate (env : Env) (c : JellyPotClient) (log : List Event) :
    Option GoError × JellyPotClient × List Event :=
  let log := log ++ [Event.authenticate]
  match env.marshalAuthRequest { Username := c.username, Password := c.password } with
  | Except.error err =>
    (some (GoError.wrap "failed to create auth request: %w" err), c, log)
  | Except.ok body =>
    let url := Sprintf "%s/Users/AuthenticateByName" [c.serverUrl]
    match env.NewRequest "POST" url with
    | some err => (some (GoError.wrap "failed to create HTTP request: %w" err), c, log)
    | none =>
      let req : Request := { method := "POST", url := url, header := [], body := some body }
      let req := setCommonHeaders c req
      let req := { req with header := headerSet req.header "Content-Type" "application/json" }
      let out := env.Do log req
      let log := log ++ [Event.roundTrip req out]
      match out with
      | HttpOutcome.transportError err =>
        (some (GoError.wrap "failed to send auth request: %w" err), c, log)
      | HttpOutcome.response StatusCode Body =>
        if StatusCode ≠ 200 then
          (some (GoError.text (Sprintf "authentication failed with status code: %d"
            [toString StatusCode])), c, log)
        else
          match env.decodeAuthResponse Body with
          | Except.error err =>
            (some (GoError.wrap "failed to parse auth response: %w" err),
              { c with accessToken := "" }, log)
          | Except.ok authResp =>
            (none,
              { c with
                accessToken := authResp.AccessToken
                sessionId := authResp.SessionInfo.UserId
                userId := authResp.SessionInfo.UserId }, log)

/-- Sends the current playback status to Jellyfin. -/
def UpdatePlaybackStatus (env : Env) (c : JellyPotClient) (event : PlaybackStatusEvent)
    (log : List Event) : Option GoError × JellyPotClient × List Event :=
  let a := if c.accessToken = "" then Authenticate env c log else (none, c, log)
  match a with
  | (some err, c, log) => (some err, c, log)
  | (none, c, log) =>
    match env.marshalEvent event with
    | Except.error err =>
      (some (GoError.wrap "failed to create playback status request: %w" err), c, log)
    | Except.ok reqBody =>
      let url := Sprintf "%s/Sessions/Playing/Progress" [c.serverUrl]
      match env.NewRequest "POST" url with
      | some err => (some (GoError.wrap "failed to create HTTP request: %w" err), c, log)
      | none =>
        let req : Request := { method := "POST", url := url, header := [], body := some reqBody }
        let req := setCommonHeaders c req
        let req := { req with header := headerSet req.header "Content-Type" "application/json" }
        let out := env.Do log req
        let log := log ++ [Event.roundTrip req out]
        match out with
        | HttpOutcome.transportError err =>
          (some (GoError.wrap "failed to send playback status: %w" err), c, log)
        | HttpOutcome.response StatusCode _ =>
          if StatusCode ≠ 200 ∧ StatusCode ≠ 204 then
            (some (GoError.text (Sprintf "update playback status failed with code: %d"
              [toString StatusCode])), { c with accessToken := "" }, log)
          else (none, c, log)

/-- Retrieves details about a specific media item from Jellyfin. -/
def GetItem (env : Env) (c : JellyPotClient) (itemId : String) (log : List Event) :
    Except GoError MediaItem × JellyPotClient × List Event :=
  let a := if c.accessToken = "" then Authenticate env c log else (none, c, log)
  match a with
  | (some err, c, log) => (Except.error err, c, log)
  | (none, c, log) =>
    let url := Sprintf "%s/Users/%s/Items/%s" [c.serverUrl, c.userId, itemId]
    match env.NewRequest "GET" url with
    | some err => (Except.error (GoError.wrap "failed to create HTTP request: %w" err), c, log)
    | none =>
      let req : Request := { method := "GET", url := url, header := [], body := none }
      let req := setCommonHeaders c req
      let out := env.Do log req
      let log := log ++ [Event.roundTrip req out]
      match out with
      | HttpOutcome.transportError err =>
        (Except.error (GoError.wrap "failed to send item request: %w" err), c, log)
      | HttpOutcome.response StatusCode Body =>
        if StatusCode ≠ 200 then
          (Except.error (GoError.text (Sprintf "get item failed with status code: %d"
            [toString StatusCode])), c, log)
        else
          match env.decodeMediaItem Body with
          | Except.error err =>
            (Except.error (GoError.wrap "failed to parse item response: %w" err),
              { c with accessToken := "" }, log)
          | Except.ok item => (Except.ok item, c, log)

/-- A test double of the libraries and the server: marshalling always
succeeds, `http.NewRequest` rejects a URL holding an ASCII control character
(the first check of Go `url.Parse`), the decoders accept one body each, and
the server answers the item request, the authentication request and the
progress request with the three given outcomes. -/
def scriptedEnv (authOut progressOut itemOut : HttpOutcome) : Env :=
  { marshalAuthRequest := fun r => Except.ok (r.Username ++ ":" ++ r.Password)
    marshalEvent := fun e => Except.ok e.EventName
    NewRequest := fun _ url =>
      if url.data.any (fun ch => decide (ch.toNat < 32 ∨ ch.toNat = 127)) then
        some (GoError.text "net/url: invalid control character in URL")
      else none
    Do := fun _ req =>
      if req.method = "GET" then itemOut
      else if req.url = "http://jf/Users/AuthenticateByName" then authOut
      else progressOut
    decodeAuthResponse := fun b =>
      if b = "auth-ok" then
        Except.ok { AccessToken := "T1", SessionInfo := { Id := "S1", UserId := "U1" } }
      else Except.error (GoError.text "unexpected end of JSON input")
    decodeMediaItem := fun b =>
      if b = "item-ok" then
        Except.ok { Id := "ABC123", Name := "Film", ItemType := "Movie",
                    UserData := { PlaybackPositionTicks := 1200000000, ItemId := "ABC123" } }
      else Except.error (GoError.text "EOF") }

/-- A client as `main` creates it, not yet authenticated. -/
def freshClient : JellyPotClient :=
  NewJellyPotClient "1.0" "http://jf" "user" "secret" "dev-1"

/-- A client as `main` creates it from a configuration whose server URL ends
in the control character DEL, which `http.NewRequest` rejects. -/
def rejectedUrlClient : JellyPotClient :=
  NewJellyPotClient "1.0" "http://jf\x7f" "user" "secret" "dev-1"

/-- A client holding the token "T0". -/
def tokenClient : JellyPotClient :=
  { freshClient with accessToken := "T0", sessionId := "S0", userId := "U0" }

/-- The progress event of a probe with status 2 at 5000 ms. -/
def sampleEvent : PlaybackStatusEvent :=
  { PositionTicks := 50000000
    PlaybackStartTimeTicks := 0
    PlayMethod := "DirectPlay"
    MediaSourceId := "ABC123"
    CanSeek := true
    ItemId := "ABC123"
    EventName := "timeupdate" }

/-- The server that accepts the login, serves the item and acknowledges
progress with 204. -/
def happyEnv : Env :=
  scriptedEnv (HttpOutcome.response 200 "auth-ok") (HttpOutcome.response 204 "")
    (HttpOutcome.response 200 "item-ok")

/-- The server that refuses the login with status 401. -/
def refusingEnv : Env :=
  scriptedEnv (HttpOutcome.response 401 "") (HttpOutcome.response 204 "")
    (HttpOutcome.response 200 "item-ok")

/-- The server that answers the login with status 200 and a body that is not
an authentication response. -/
def garbledEnv : Env :=
  scriptedEnv (HttpOutcome.response 200 "<html>") (HttpOutcome.response 204 "")
    (HttpOutcome.response 200 "<html>")

/-- The server that answers the item request with 204 and an empty body. -/
def noContentEnv : Env :=
  scriptedEnv (HttpOutcome.response 200 "auth-ok") (HttpOutcome.response 204 "")
    (HttpOutcome.response 204 "")

/-- The server that accepts the login and rejects progress with 401. -/
def expiredEnv : Env :=
  scriptedEnv (HttpOutcome.response 200 "auth-ok") (HttpOutcome.response 401 "")
    (HttpOutcome.response 200 "item-ok")

/-! ## Instance coordination over the named pipe -/

/-- Go `utf16.Encode` on the runes of a string: one code unit for a rune of
the basic plane, a surrogate pair above it, U+FFFD for anything else. -/
def utf16Encode : List Char → List Nat
  | [] => []
  | c :: rest =>
    if c.toNat < 0xd800 ∨ (0xe000 ≤ c.toNat ∧ c.toNat < 0x10000) then
      c.toNat :: utf16Encode rest
    else if 0x10000 ≤ c.toNat ∧ c.toNat ≤ 0x10FFFF then
      (0xd800 + (((c.toNat - 0x10000) >>> 10) &&& 0x3ff)) ::
        (0xdc00 + ((c.toNat - 0x10000) &&& 0x3ff)) :: utf16Encode rest
    else 0xFFFD :: utf16Encode rest

/-- Go `utf16.Decode`: a code unit outside the surrogate range is a rune, a
high surrogate followed by a low surrogate is one rune, and any other
surrogate is U+FFFD. -/
def utf16Decode : List Nat → List Char
  | [] => []
  | r :: rest =>
    if r < 0xd800 ∨ 0xe000 ≤ r then Char.ofNat r :: utf16Decode rest
    else
      match rest with
      | [] => [Char.ofNat 0xFFFD]
      | r2 :: rest2 =>
        if r < 0xdc00 ∧ 0xdc00 ≤ r2 ∧ r2 < 0xe000 then
          Char.ofNat ((((r - 0xd800) <<< 10) ||| (r2 - 0xdc00)) + 0x10000) :: utf16Decode rest2
        else Char.ofNat 0xFFFD :: utf16Decode (r2 :: rest2)

/-- Go `windows.UTF16FromString`: the UTF-16 encoding of the string with a
terminating NUL added; an error when the string holds a NUL. -/
def UTF16FromString (s : String) : Except GoError (List Nat) :=
  if s.data.any (fun ch => ch.toNat == 0) then
    Except.error (GoError.text "invalid argument")
  else Except.ok (utf16Encode (s.data ++ [Char.ofNat 0]))

/-- Go `windows.StringToUTF16`: as `UTF16FromString`, and `none` is its
panic on a string holding a NUL. -/
def StringToUTF16 (s : String) : Option (List Nat) :=
  match UTF16FromString s with
  | Except.error _ => none
  | Except.ok a => some a

/-- Go `windows.UTF16ToString`: decodes the code units before the first NUL.
A surrogate without its partner is rendered as U+FFFD, as `utf16.Decode`
does; Go releases that keep it in another form agree on every other input,
and in no rendering does such a message equal an ASCII string. -/
def UTF16ToString (s : List Nat) : String :=
  ⟨utf16Decode (s.takeWhile (fun v => v ≠ 0))⟩

/-- The bytes a `[]uint16` occupies in memory (little-endian, as on every
Windows target): the view `(*[1 << 16]byte)(unsafe.Pointer(&msg[0]))`. -/
def bytesOfUnits : List Nat → List Nat
  | [] => []
  | u :: rest => (u % 256) :: (u / 256 % 256) :: bytesOfUnits rest

/-- The `uint16` values a `[]byte` holds in memory (little-endian): the view
`(*[2048]uint16)(unsafe.Pointer(&buffer[0]))`. A trailing odd byte belongs to
no whole code unit. -/
def unitsOfBytes : List Nat → List Nat
  | lo :: hi :: rest => (lo % 256 + 256 * (hi % 256)) :: unitsOfBytes rest
  | _ => []

def ERROR_MORE_DATA : Nat := 234
def ERROR_PIPE_CONNECTED : Nat := 535

/-- The calls the two ends of the pipe make, in the order they make them. -/
inductive PipeAction where
  | CreateFile
  | WriteFile (bytes : List Nat)
  | CloseHandle
  | ConnectNamedPipe
  | ReadFile
  | DisconnectNamedPipe
  | Exit (code : Int)
  deriving DecidableEq, Repr

/-- The pipe as the new instance sees it: the result of opening it with
`CreateFile` and the error `WriteFile` returns for a handle and a payload. -/
structure PipeClient where
  createFile : Except GoError Nat
  writeFile : Nat → List Nat → Option GoError

/-- Checks for a running instance and sends the exit command. The result is
the pair the function returns together with the calls it made; `none` is a
panic of `StringToUTF16`. -/
def notifyExistingInstance (os : PipeClient) :
    Option ((Bool × Option GoError) × List PipeAction) :=
  match os.createFile with
  | Except.error _ => some ((false, none), [PipeAction.CreateFile])
  | Except.ok handle =>
    match StringToUTF16 "EXIT" with
    | none => none
    | some msg =>
      let payload := (bytesOfUnits msg).take (msg.length * 2)
      let err := os.writeFile handle payload
      some ((true, err),
        [PipeAction.CreateFile, PipeAction.WriteFile payload, PipeAction.CloseHandle])

/-- One turn of the acceptor as the operating system plays it: the error of
`ConnectNamedPipe`, the error of `ReadFile`, and the bytes that read copies
into the buffer. -/
structure Connection where
  connectErr : Option GoError
  readErr : Option GoError
  data : List Nat

/-- The call `windows.ReadFile(pipe, buffer, &bytesRead, nil)`: the incoming
bytes overwrite the start of the buffer, never more than the buffer holds;
returns the buffer and `bytesRead`. -/
def ReadFile (buffer : List Nat) (data : List Nat) : List Nat × Nat :=
  let n := min data.length buffer.length
  (data.take n ++ buffer.drop n, n)

/-- The `for` loop of `listenForNewInstances` over the connections the
operating system delivers, with the buffer the loop carries from turn to turn
(`bytesRead` is written by each `ReadFile` before it is read, so no value of
it is carried). The result is the calls made: it ends with `Exit 0` when
the process terminates itself, with `CloseHandle` when the loop breaks and
the function returns, and with `ConnectNamedPipe` when the acceptor is left
waiting for a client that does not come. -/
def listenLoop (buffer : List Nat) : List Connection → List PipeAction
  | [] => [PipeAction.ConnectNamedPipe]
  | conn :: rest =>
    if conn.connectErr ≠ none ∧
        conn.connectErr ≠ some (GoError.errno ERROR_PIPE_CONNECTED) then
      [PipeAction.ConnectNamedPipe, PipeAction.CloseHandle]
    else
      let r := ReadFile buffer conn.data
      if conn.readErr = none ∨ conn.readErr = some (GoError.errno ERROR_MORE_DATA) then
        let msg := UTF16ToString ((unitsOfBytes r.1).take (r.2 / 2))
        if msg = "EXIT" then
          [PipeAction.ConnectNamedPipe, PipeAction.ReadFile, PipeAction.DisconnectNamedPipe,
            PipeAction.Exit 0]
        else
          PipeAction.ConnectNamedPipe :: PipeAction.ReadFile ::
            PipeAction.DisconnectNamedPipe :: listenLoop r.1 rest
      else
        PipeAction.ConnectNamedPipe :: PipeAction.ReadFile ::
          PipeAction.DisconnectNamedPipe :: listenLoop r.1 rest

/-- Waits for new instances and exits when requested: the loop started on a
fresh buffer of 4096 bytes. -/
def listenForNewInstances (script : List Connection) : List PipeAction :=
  listenLoop (List.replicate 4096 0) script

/-- A pipe that opens and accepts the write. -/
def openPipe : PipeClient :=
  { createFile := Except.ok 77
    writeFile := fun _ _ => none }

/-- A client whose message is delivered in full: the ten bytes of "EXIT" and
its terminating NUL. -/
def exitConnection : Connection :=
  { connectErr := none
    readErr := none
    data := [69, 0, 88, 0, 73, 0, 84, 0, 0, 0] }

/-- A client that sends the UTF-16 bytes of "PING" and its terminating NUL. -/
def pingConnection : Connection :=
  { connectErr := none
    readErr := none
    data := [80, 0, 73, 0, 78, 0, 71, 0, 0, 0] }

/-! ## Theorems: player probe -/

/-- C1: for every integer status code, `getEventName` is "timeupdate" at 2,
"pause" at 1, "stop" at -1 and "unknown" at every other integer. -/
theorem getEventName_table (s : Int) :
    getEventName s =
      if s = 2 then "timeupdate" else if s = 1 then "pause"
      else if s = -1 then "stop" else "unknown" := by
  unfold getEventName
  split <;> simp_all

theorem toInt64_of_lt (m : Nat) (h : m < 2 ^ 63) : toInt64 m = (m : Int) := by
  unfold toInt64
  have h1 : m % 2 ^ 64 = m := Nat.mod_eq_of_lt (by omega)
  rw [h1, if_pos h]

/-- C2 as stated fails: the all-ones word 2^64 - 1 is a value of `uintptr`, it
converts to the `int64` -1, and the Ticks expression is -10000, not the
product (2^64 - 1) × 10000. -/
theorem ticksOf_all_ones_wraps :
    (18446744073709551615 : Nat) < 2 ^ 64 ∧
    ticksOf 18446744073709551615 = -10000 ∧
    ticksOf 18446744073709551615 ≠ ((18446744073709551615 : Nat) : Int) * 10000 := by
  refine ⟨by norm_num, ?_, ?_⟩ <;> decide

/-- C2 amended: for every millisecond value m up to 922 337 203 685 477 (the
largest m with m × 10000 ≤ 2^63 - 1), the Ticks expression
`int64(m) * TicksPerMillisecond` equals the product m × 10000 exactly. -/
theorem ticksOf_exact (m : Nat) (h : m ≤ 922337203685477) :
    ticksOf m = (m : Int) * 10000 := by
  unfold ticksOf wrapInt64 TicksPerMillisecond
  rw [toInt64_of_lt m (by omega)]
  omega

/-- C2 amended, at 5000 ms: 50 000 000 ticks. -/
theorem ticksOf_exact_witness :
    (5000 : Nat) ≤ 922337203685477 ∧ ticksOf 5000 = ((5000 : Nat) : Int) * 10000 :=
  ⟨by decide, ticksOf_exact 5000 (by decide)⟩

/-- C7, code defect: on a machine where the window is located and both
queries are delivered with error code 0 (status 2, position 5000 ms),
`getPotPlayerInfo` returns the error "failed to get playback status" instead
of a sample, and on no machine at all does it return a sample: the error
`Call` returns is never nil, and `getPotPlayerInfo` tests it against nil. -/
theorem getPotPlayerInfo_never_returns_sample :
    getPotPlayerInfo answeringOs =
        Except.error (GoError.wrap "failed to get playback status: %w" (GoError.errno 0)) ∧
      ∀ (os : Os) (info : PotPlayerInfo), getPotPlayerInfo os ≠ Except.ok info := by
  constructor
  · rfl
  · intro os info
    unfold getPotPlayerInfo
    cases findPotPlayerWindow os with
    | error e => simp
    | ok h =>
      cases hf : os.sendMessageFound <;> simp [Call]

theorem classNameMatches_eq (s : String) (l : List String) :
    classNameMatches s l = decide (s ∈ l) := by
  induction l with
  | nil => simp [classNameMatches]
  | cons c rest ih =>
    by_cases h : s = c <;> simp [classNameMatches, h, ih]

theorem EnumWindows_eq (hWnd : Nat) (l : List (Nat × String)) :
    EnumWindows hWnd l =
      match l.find? (fun w => decide (w.2 ∈ PotPlayerClassNames)) with
      | some w => uintptr w.1
      | none => hWnd := by
  induction l generalizing hWnd with
  | nil => simp [EnumWindows]
  | cons w rest ih =>
    by_cases h : w.2 ∈ PotPlayerClassNames
    · simp [EnumWindows, enumCallback, classNameMatches_eq, h, List.find?]
    · simp [EnumWindows, enumCallback, classNameMatches_eq, h, List.find?, ih]

theorem findByClassNames_eq (os : Os) (l : List String)
    (hl : ∀ c ∈ l, UTF16PtrFromString c = Except.ok ()) :
    findByClassNames os l =
      Except.ok ((l.find? (fun c =>
        decide (uintptr (os.findWindowW c).1 ≠ 0 ∧ (os.findWindowW c).2 = 0))).map
          (fun c => uintptr (os.findWindowW c).1)) := by
  induction l with
  | nil => simp [findByClassNames]
  | cons c rest ih =>
    have hc := hl c (by simp)
    have ih2 := ih (fun d hd => hl d (by simp [hd]))
    by_cases h : uintptr (os.findWindowW c).1 ≠ 0 ∧ (os.findWindowW c).2 = 0
    · simp [findByClassNames, hc, Call, isErrnoZero, h, List.find?]
    · have h2 : ¬ (¬ uintptr (os.findWindowW c).1 = 0 ∧ (os.findWindowW c).2 = 0) := h
      simp [findByClassNames, hc, Call, isErrnoZero, h2, List.find?, ih2]

theorem classNames_convert : ∀ c ∈ PotPlayerClassNames, UTF16PtrFromString c = Except.ok () := by
  intro c hc
  simp only [PotPlayerClassNames, List.mem_cons, List.mem_singleton, List.not_mem_nil,
    or_false] at hc
  rcases hc with h | h | h | h <;> subst h <;> rfl

theorem findPotPlayerWindow_eq (os : Os) :
    findPotPlayerWindow os =
      match PotPlayerClassNames.find? (fun c =>
          decide (uintptr (os.findWindowW c).1 ≠ 0 ∧ (os.findWindowW c).2 = 0)) with
      | some c => Except.ok (uintptr (os.findWindowW c).1)
      | none =>
        match os.enumWindows.find? (fun w => decide (w.2 ∈ PotPlayerClassNames)) with
        | some w =>
          if uintptr w.1 ≠ 0 then Except.ok (uintptr w.1)
          else Except.error (GoError.text "PotPlayer window not found")
        | none => Except.error (GoError.text "PotPlayer window not found") := by
  unfold findPotPlayerWindow
  rw [findByClassNames_eq os PotPlayerClassNames classNames_convert]
  cases hd : PotPlayerClassNames.find? (fun c =>
      decide (uintptr (os.findWindowW c).1 ≠ 0 ∧ (os.findWindowW c).2 = 0)) with
  | some c => simp
  | none =>
    simp only [Option.map_none']
    rw [EnumWindows_eq]
    cases os.enumWindows.find? (fun w => decide (w.2 ∈ PotPlayerClassNames)) with
    | some w => simp
    | none => simp

/-- C8 as stated fails: on `staleErrorOs` the first class name, `PotPlayer64`,
has a direct lookup that yields the non-null handle 7, yet
`findPotPlayerWindow` returns the not-found error, because the last-error
code read after that lookup is 5 and not 0. -/
theorem findPotPlayerWindow_rejects_stale_error :
    PotPlayerClassNames.find? (fun c => decide (uintptr (staleErrorOs.findWindowW c).1 ≠ 0))
        = some "PotPlayer64" ∧
      uintptr (staleErrorOs.findWindowW "PotPlayer64").1 = 7 ∧
      findPotPlayerWindow staleErrorOs =
        Except.error (GoError.text "PotPlayer window not found") := by
  refine ⟨by decide, by decide, by rfl⟩

/-- C8 amended: over an abstract direct lookup and an abstract finite
enumeration of windows with non-null handles, `findPotPlayerWindow` returns
the handle of the first class name in `PotPlayerClassNames` order whose direct
lookup yields a non-null handle with last-error code 0; if there is none, it
returns the first enumerated window whose class name is in the list; it
returns the not-found error exactly when no direct lookup yields a non-null
handle with last-error code 0 and no enumerated window has a listed class
name; and it returns no other error. -/
theorem findPotPlayerWindow_locates (os : Os)
    (hnz : ∀ w ∈ os.enumWindows, uintptr w.1 ≠ 0) :
    (∀ c, PotPlayerClassNames.find? (fun c =>
          decide (uintptr (os.findWindowW c).1 ≠ 0 ∧ (os.findWindowW c).2 = 0)) = some c →
        findPotPlayerWindow os = Except.ok (uintptr (os.findWindowW c).1)) ∧
    (PotPlayerClassNames.find? (fun c =>
          decide (uintptr (os.findWindowW c).1 ≠ 0 ∧ (os.findWindowW c).2 = 0)) = none →
        ∀ w, os.enumWindows.find? (fun w => decide (w.2 ∈ PotPlayerClassNames)) = some w →
          findPotPlayerWindow os = Except.ok (uintptr w.1)) ∧
    (findPotPlayerWindow os = Except.error (GoError.text "PotPlayer window not found") ↔
        (∀ c ∈ PotPlayerClassNames,
          ¬ (uintptr (os.findWindowW c).1 ≠ 0 ∧ (os.findWindowW c).2 = 0)) ∧
        ∀ w ∈ os.enumWindows, w.2 ∉ PotPlayerClassNames) ∧
    (∀ e, findPotPlayerWindow os = Except.error e →
        e = GoError.text "PotPlayer window not found") := by
  rw [findPotPlayerWindow_eq]
  cases hd : PotPlayerClassNames.find? (fun c =>
      decide (uintptr (os.findWindowW c).1 ≠ 0 ∧ (os.findWindowW c).2 = 0)) with
  | some c =>
    have hc := List.find?_some hd
    have hm := List.mem_of_find?_eq_some hd
    refine ⟨?_, ?_, ?_, ?_⟩
    · intro d hd2
      cases hd2
      rfl
    · intro h
      cases h
    · constructor
      · intro h
        cases h
      · rintro ⟨h1, -⟩
        exact absurd (of_decide_eq_true hc) (h1 c hm)
    · intro e h
      cases h
  | none =>
    have hall : ∀ c ∈ PotPlayerClassNames,
        ¬ (uintptr (os.findWindowW c).1 ≠ 0 ∧ (os.findWindowW c).2 = 0) := by
      intro c hc
      have := List.find?_eq_none.mp hd c hc
      simpa using this
    cases he : os.enumWindows.find? (fun w => decide (w.2 ∈ PotPlayerClassNames)) with
    | some w =>
      have hw := List.find?_some he
      have hm := List.mem_of_find?_eq_some he
      have hz := hnz w hm
      simp only [hz, ne_eq, not_false_eq_true, if_true]
      refine ⟨?_, ?_, ?_, ?_⟩
      · intro d hd2
        cases hd2
      · intro _ v hv
        cases hv
        rfl
      · constructor
        · intro h
          cases h
        · rintro ⟨-, h2⟩
          exact absurd (of_decide_eq_true hw) (h2 w hm)
      · intro e h
        cases h
    | none =>
      have hnone : ∀ w ∈ os.enumWindows, w.2 ∉ PotPlayerClassNames := by
        intro w hw
        have := List.find?_eq_none.mp he w hw
        simpa using this
      refine ⟨?_, ?_, ?_, ?_⟩
      · intro d hd2
        cases hd2
      · intro _ v hv
        cases hv
      · exact ⟨fun _ => ⟨hall, hnone⟩, fun _ => rfl⟩
      · intro e h
        cases h
        rfl

/-- C8 amended, on `enumeratingOs`: no direct lookup succeeds and the first
listed window of the enumeration, 12, is returned. -/
theorem findPotPlayerWindow_locates_witness :
    (∀ w ∈ enumeratingOs.enumWindows, uintptr w.1 ≠ 0) ∧
      findPotPlayerWindow enumeratingOs = Except.ok 12 := by
  have hnz : ∀ w ∈ enumeratingOs.enumWindows, uintptr w.1 ≠ 0 := by decide
  refine ⟨hnz, ?_⟩
  have h := (findPotPlayerWindow_locates enumeratingOs hnz).2.1 (by decide)
    (12, "PotPlayer") (by decide)
  exact h

/-! ## Theorems: session client -/

theorem Sprintf_unauthenticated (a b c d : String) :
    Sprintf "MediaBrowser Client=\"%s\", Device=\"%s\", DeviceId=\"%s\", Version=\"%s\""
        [a, b, c, d] =
      "MediaBrowser Client=\"" ++ a ++ "\", Device=\"" ++ b ++ "\", DeviceId=\"" ++ c ++
        "\", Version=\"" ++ d ++ "\"" := by
  apply String.ext
  simp [Sprintf, sprintfAux]

theorem Sprintf_authenticated (t a b c d : String) :
    Sprintf
        "MediaBrowser Token=\"%s\", Client=\"%s\", Device=\"%s\", DeviceId=\"%s\", Version=\"%s\""
        [t, a, b, c, d] =
      "MediaBrowser Token=\"" ++ t ++ "\", Client=\"" ++ a ++ "\", Device=\"" ++ b ++
        "\", DeviceId=\"" ++ c ++ "\", Version=\"" ++ d ++ "\"" := by
  apply String.ext
  simp [Sprintf, sprintfAux]

theorem headerGet_headerSet (h : List (String × String)) (key value : String) :
    headerGet (headerSet h key value) key = some value := by
  simp [headerGet, headerSet]

/-- C9: for every client state, the Authorization header written by
`setCommonHeaders` is `MediaBrowser Client="..", Device="..", DeviceId="..",
Version=".."` when accessToken is empty, and that string with
`Token="<accessToken>", ` inserted immediately before `Client=` when
accessToken is non-empty. -/
theorem setCommonHeaders_authorization (c : JellyPotClient) (req : Request) :
    headerGet (setCommonHeaders c req).header "Authorization" =
      some ("MediaBrowser " ++
        (if c.accessToken = "" then "" else "Token=\"" ++ c.accessToken ++ "\", ") ++
        "Client=\"" ++ c.clientName ++ "\", Device=\"" ++ c.deviceName ++
        "\", DeviceId=\"" ++ c.deviceId ++ "\", Version=\"" ++ c.clientVersion ++ "\"") := by
  unfold setCommonHeaders
  by_cases h : c.accessToken = ""
  · simp only [h, if_true, headerGet_headerSet, Sprintf_unauthenticated, Option.some.injEq]
    apply String.ext
    simp
  · simp only [h, if_false, headerGet_headerSet, Sprintf_authenticated, Option.some.injEq]
    apply String.ext
    simp

theorem setCommonHeaders_url (c : JellyPotClient) (req : Request) :
    (setCommonHeaders c req).url = req.url := by
  unfold setCommonHeaders
  split <;> rfl

/-- Every way `Authenticate` can end: without a round trip (a library
rejected the request), after a transport error or a status other than 200,
after a 200 whose body does not decode, or with success. -/
theorem Authenticate_cases (env : Env) (c : JellyPotClient) (log : List Event) :
    (∃ e, Authenticate env c log = (some e, c, log ++ [Event.authenticate])) ∨
    ∃ q out, q.url = Sprintf "%s/Users/AuthenticateByName" [c.serverUrl] ∧
      ((∃ e, Authenticate env c log =
            (some e, c, log ++ [Event.authenticate] ++ [Event.roundTrip q out]) ∧
          ((∃ t, out = HttpOutcome.transportError t) ∨
            ∃ s b, out = HttpOutcome.response s b ∧ s ≠ 200)) ∨
        (∃ e b err, out = HttpOutcome.response 200 b ∧
          env.decodeAuthResponse b = Except.error err ∧
          Authenticate env c log =
            (some e, { c with accessToken := "" },
              log ++ [Event.authenticate] ++ [Event.roundTrip q out])) ∨
        (∃ b a, out = HttpOutcome.response 200 b ∧
          env.decodeAuthResponse b = Except.ok a ∧
          Authenticate env c log =
            (none, { c with accessToken := a.AccessToken, sessionId := a.SessionInfo.UserId,
                            userId := a.SessionInfo.UserId },
              log ++ [Event.authenticate] ++ [Event.roundTrip q out]))) := by
  unfold Authenticate
  simp only []
  split
  · left
    exact ⟨_, rfl⟩
  · split
    · left
      exact ⟨_, rfl⟩
    · right
      split
      · rename_i t ht
        refine ⟨_, _, ?_, Or.inl ⟨_, rfl, Or.inl ⟨t, ht⟩⟩⟩
        exact setCommonHeaders_url c _
      · rename_i s b hb
        split
        · rename_i hs
          refine ⟨_, _, ?_, Or.inl ⟨_, rfl, Or.inr ⟨s, b, hb, hs⟩⟩⟩
          exact setCommonHeaders_url c _
        · rename_i hs
          have hs2 : s = 200 := by simpa using hs
          subst hs2
          split
          · rename_i err herr
            refine ⟨_, _, ?_, Or.inr (Or.inl ⟨_, b, err, hb, herr, rfl⟩)⟩
            exact setCommonHeaders_url c _
          · rename_i a ha
            refine ⟨_, _, ?_, Or.inr (Or.inr ⟨b, a, hb, ha, rfl⟩)⟩
            exact setCommonHeaders_url c _

/-- C6, code defect: on the successful response with AccessToken "T1",
SessionInfo.Id "S1" and SessionInfo.UserId "U1", `Authenticate` returns nil and
stores accessToken "T1" and userId "U1", but sessionId is "U1" and not "S1";
after every successful call sessionId equals userId, because the code assigns
`authResp.SessionInfo.UserId` to both. -/
theorem Authenticate_sessionId_holds_UserId :
    happyEnv.decodeAuthResponse "auth-ok" =
        Except.ok { AccessToken := "T1", SessionInfo := { Id := "S1", UserId := "U1" } } ∧
      (Authenticate happyEnv freshClient []).1 = none ∧
      (Authenticate happyEnv freshClient []).2.1.accessToken = "T1" ∧
      (Authenticate happyEnv freshClient []).2.1.userId = "U1" ∧
      (Authenticate happyEnv freshClient []).2.1.sessionId = "U1" ∧
      (Authenticate happyEnv freshClient []).2.1.sessionId ≠ "S1" ∧
      ∀ (env : Env) (c : JellyPotClient) (log : List Event),
        (Authenticate env c log).1 = none →
          (Authenticate env c log).2.1.sessionId = (Authenticate env c log).2.1.userId := by
  refine ⟨rfl, rfl, rfl, rfl, rfl, by decide, ?_⟩
  intro env c log h
  rcases Authenticate_cases env c log with ⟨e, he⟩ | ⟨q, out, -, ⟨e, he, -⟩ | ⟨e, b, err, -, -, he⟩ |
    ⟨b, a, -, -, he⟩⟩
  · rw [he] at h; cases h
  · rw [he] at h; cases h
  · rw [he] at h; cases h
  · rw [he]

/-- C5 as stated fails: a client holding the token "T0" whose login is refused
with status 401 gets an error back and still holds "T0". -/
theorem Authenticate_refused_keeps_token :
    tokenClient.accessToken = "T0" ∧
      (Authenticate refusingEnv tokenClient []).1 =
        some (GoError.text "authentication failed with status code: 401") ∧
      (Authenticate refusingEnv tokenClient []).2.1.accessToken = "T0" ∧
      (Authenticate refusingEnv tokenClient []).2.1.accessToken ≠ "" := by
  refine ⟨rfl, ?_, rfl, by decide⟩
  decide

/-- C5 amended: whenever the answer to the authentication request is a
transport error, a status other than 200, or a 200 whose body cannot be
decoded, `Authenticate` returns an error; after a body that cannot be decoded
accessToken is empty; and after every failed call that started with an empty
accessToken, accessToken is empty. -/
theorem Authenticate_failure (env : Env) (c : JellyPotClient) (log : List Event) :
    (∀ q out,
        (Authenticate env c log).2.2 = log ++ [Event.authenticate] ++ [Event.roundTrip q out] →
        ((∃ t, out = HttpOutcome.transportError t) ∨
          ∃ s b, out = HttpOutcome.response s b ∧
            (s ≠ 200 ∨ ∃ err, env.decodeAuthResponse b = Except.error err)) →
        ∃ e, (Authenticate env c log).1 = some e) ∧
    (∀ q b err,
        (Authenticate env c log).2.2 =
          log ++ [Event.authenticate] ++ [Event.roundTrip q (HttpOutcome.response 200 b)] →
        env.decodeAuthResponse b = Except.error err →
        (Authenticate env c log).2.1.accessToken = "") ∧
    (∀ e, (Authenticate env c log).1 = some e → c.accessToken = "" →
        (Authenticate env c log).2.1.accessToken = "") := by
  rcases Authenticate_cases env c log with ⟨e, he⟩ | ⟨q, out, -, ⟨e, he, hout⟩ |
    ⟨e, b, err, hout, hdec, he⟩ | ⟨b, a, hout, hdec, he⟩⟩
  · rw [he]
    refine ⟨?_, ?_, ?_⟩
    · intro q out h
      simp at h
    · intro q b err h
      simp at h
    · intro e2 _ hc
      exact hc
  · rw [he]
    refine ⟨?_, ?_, ?_⟩
    · intro _ _ _ _
      exact ⟨e, rfl⟩
    · intro q2 b2 err h hd
      simp only [List.append_cancel_left_eq, List.cons.injEq, Event.roundTrip.injEq,
        and_true] at h
      rcases hout with ⟨t, ht⟩ | ⟨s, b, hsb, hs⟩
      · rw [ht] at h
        cases h.2
      · rw [hsb] at h
        have := h.2
        simp only [HttpOutcome.response.injEq] at this
        exact absurd this.1 hs
    · intro e2 _ hc
      exact hc
  · rw [he]
    refine ⟨?_, ?_, ?_⟩
    · intro _ _ _ _
      exact ⟨e, rfl⟩
    · intro _ _ _ _ _
      rfl
    · intro _ _ _
      rfl
  · rw [he]
    refine ⟨?_, ?_, ?_⟩
    · intro q2 out2 h hcase
      simp only [List.append_cancel_left_eq, List.cons.injEq, Event.roundTrip.injEq,
        and_true] at h
      rw [← h.2, hout] at hcase
      rcases hcase with ⟨t, ht⟩ | ⟨s, b2, hsb, hs | ⟨err, herr⟩⟩
      · cases ht
      · simp only [HttpOutcome.response.injEq] at hsb
        exact absurd hsb.1.symm hs
      · simp only [HttpOutcome.response.injEq] at hsb
        rw [← hsb.2, hdec] at herr
        cases herr
    · intro q2 b2 err h hd
      simp only [List.append_cancel_left_eq, List.cons.injEq, Event.roundTrip.injEq,
        and_true] at h
      rw [hout] at h
      have := h.2
      simp only [HttpOutcome.response.injEq, true_and] at this
      rw [← this, hdec] at hd
      cases hd
    · intro e2 h
      cases h

/-- C5 amended, on `garbledEnv`: the body does not decode and the token "T0"
is cleared. -/
theorem Authenticate_failure_witness :
    (Authenticate garbledEnv tokenClient []).2.1.accessToken = "" :=
  (Authenticate_failure garbledEnv tokenClient []).2.1 _ "<html>"
    (GoError.text "unexpected end of JSON input") rfl rfl

/-- Every way `GetItem` can end for a client that holds a token. -/
theorem GetItem_cases (env : Env) (c : JellyPotClient) (itemId : String) (log : List Event)
    (h : c.accessToken ≠ "") :
    (∃ e, GetItem env c itemId log = (Except.error e, c, log)) ∨
    ∃ q out,
      ((∃ e, GetItem env c itemId log = (Except.error e, c, log ++ [Event.roundTrip q out]) ∧
          ((∃ t, out = HttpOutcome.transportError t) ∨
            ∃ s b, out = HttpOutcome.response s b ∧ s ≠ 200)) ∨
        (∃ e b err, out = HttpOutcome.response 200 b ∧
          env.decodeMediaItem b = Except.error err ∧
          GetItem env c itemId log =
            (Except.error e, { c with accessToken := "" }, log ++ [Event.roundTrip q out])) ∨
        (∃ b item, out = HttpOutcome.response 200 b ∧
          env.decodeMediaItem b = Except.ok item ∧
          GetItem env c itemId log = (Except.ok item, c, log ++ [Event.roundTrip q out]))) := by
  unfold GetItem
  simp only [h, if_false]
  split
  · left
    exact ⟨_, rfl⟩
  · right
    split
    · rename_i t ht
      exact ⟨_, _, Or.inl ⟨_, rfl, Or.inl ⟨t, ht⟩⟩⟩
    · rename_i s b hb
      split
      · rename_i hs
        exact ⟨_, _, Or.inl ⟨_, rfl, Or.inr ⟨s, b, hb, hs⟩⟩⟩
      · rename_i hs
        have hs2 : s = 200 := by simpa using hs
        subst hs2
        split
        · rename_i err herr
          exact ⟨_, _, Or.inr (Or.inl ⟨_, b, err, hb, herr, rfl⟩)⟩
        · rename_i item hitem
          exact ⟨_, _, Or.inr (Or.inr ⟨b, item, hb, hitem, rfl⟩)⟩

/-- C10 as stated fails: the item request of a client holding the token "T0"
is answered with status 204, a 2xx status, and an empty body, which does not
decode; `GetItem` returns an error, and accessToken is still "T0", not
empty. -/
theorem GetItem_no_content_keeps_token :
    tokenClient.accessToken = "T0" ∧
      noContentEnv.decodeMediaItem "" = Except.error (GoError.text "EOF") ∧
      (GetItem noContentEnv tokenClient "ABC123" []).1 =
        Except.error (GoError.text "get item failed with status code: 204") ∧
      (GetItem noContentEnv tokenClient "ABC123" []).2.1.accessToken = "T0" ∧
      (GetItem noContentEnv tokenClient "ABC123" []).2.1.accessToken ≠ "" := by
  refine ⟨rfl, rfl, ?_, rfl, by decide⟩
  rfl

/-- C10 amended: for every client that holds a token and every item id, when
the item request is answered with status s and body b, `GetItem` returns an
error whenever s is not 200, so in particular whenever s is not 2xx, and the
client, with accessToken, sessionId and userId, is then unchanged; and when s
is 200 and b fails to decode, `GetItem` returns an error, accessToken is empty
afterwards and sessionId and userId are unchanged. -/
theorem GetItem_failure (env : Env) (c : JellyPotClient) (itemId : String)
    (log : List Event) (h : c.accessToken ≠ "") (q : Request) (s : Int) (b : String)
    (hans : (GetItem env c itemId log).2.2 =
      log ++ [Event.roundTrip q (HttpOutcome.response s b)]) :
    (s ≠ 200 →
        (∃ e, (GetItem env c itemId log).1 = Except.error e) ∧
        (GetItem env c itemId log).2.1 = c) ∧
    (s = 200 → ∀ err, env.decodeMediaItem b = Except.error err →
        (∃ e, (GetItem env c itemId log).1 = Except.error e) ∧
        (GetItem env c itemId log).2.1.accessToken = "" ∧
        (GetItem env c itemId log).2.1.sessionId = c.sessionId ∧
        (GetItem env c itemId log).2.1.userId = c.userId) := by
  rcases GetItem_cases env c itemId log h with ⟨e, he⟩ | ⟨q2, out, ⟨e, he, hout⟩ |
    ⟨e, b2, err2, hout, hdec, he⟩ | ⟨b2, item, hout, hdec, he⟩⟩
  · rw [he] at hans
    simp at hans
  · rw [he] at hans ⊢
    simp only [List.append_cancel_left_eq, List.cons.injEq, Event.roundTrip.injEq,
      and_true] at hans
    refine ⟨fun _ => ⟨⟨e, rfl⟩, rfl⟩, ?_⟩
    intro hs
    rcases hout with ⟨t, ht⟩ | ⟨s2, b3, hsb, hs2⟩
    · rw [ht] at hans
      cases hans.2
    · rw [hsb] at hans
      have := hans.2
      simp only [HttpOutcome.response.injEq] at this
      exact absurd (this.1.trans hs) hs2
  · rw [he] at hans ⊢
    simp only [List.append_cancel_left_eq, List.cons.injEq, Event.roundTrip.injEq,
      and_true] at hans
    rw [hout] at hans
    have := hans.2
    simp only [HttpOutcome.response.injEq] at this
    refine ⟨fun hs => absurd this.1.symm hs, ?_⟩
    intro _ _ _
    exact ⟨⟨e, rfl⟩, rfl, rfl, rfl⟩
  · rw [he] at hans ⊢
    simp only [List.append_cancel_left_eq, List.cons.injEq, Event.roundTrip.injEq,
      and_true] at hans
    rw [hout] at hans
    have := hans.2
    simp only [HttpOutcome.response.injEq] at this
    refine ⟨fun hs => absurd this.1.symm hs, ?_⟩
    intro _ err herr
    rw [← this.2, hdec] at herr
    cases herr

/-- C10 amended, on `noContentEnv` (status 204, client unchanged) and on
`garbledEnv` (status 200, body not decodable, token cleared). -/
theorem GetItem_failure_witness :
    (GetItem noContentEnv tokenClient "ABC123" []).2.1 = tokenClient ∧
      (GetItem garbledEnv tokenClient "ABC123" []).2.1.accessToken = "" :=
  ⟨((GetItem_failure noContentEnv tokenClient "ABC123" [] (by decide) _ 204 "" rfl).1
      (by decide)).2,
    ((GetItem_failure garbledEnv tokenClient "ABC123" [] (by decide) _ 200 "<html>" rfl).2
      rfl (GoError.text "EOF") rfl).2.1⟩

theorem authUrl_ne_progressUrl (serverUrl : String) :
    Sprintf "%s/Users/AuthenticateByName" [serverUrl] ≠
      Sprintf "%s/Sessions/Playing/Progress" [serverUrl] := by
  intro h
  have h2 := congrArg String.data h
  simp [Sprintf, sprintfAux] at h2

/-- When the authentication step of `UpdatePlaybackStatus` fails, the call
ends there with that error. -/
theorem UpdatePlaybackStatus_of_auth_error (env : Env) (c : JellyPotClient)
    (event : PlaybackStatusEvent) (log : List Event) (e : GoError) (c1 : JellyPotClient)
    (log1 : List Event)
    (ha : (if c.accessToken = "" then Authenticate env c log else (none, c, log)) =
      (some e, c1, log1)) :
    UpdatePlaybackStatus env c event log = (some e, c1, log1) := by
  unfold UpdatePlaybackStatus
  simp only [ha]

/-- Every way `UpdatePlaybackStatus` can end once its authentication step is
over without error, leaving the client `c1` and the trace `log1`. -/
theorem UpdatePlaybackStatus_of_auth_ok (env : Env) (c : JellyPotClient)
    (event : PlaybackStatusEvent) (log : List Event) (c1 : JellyPotClient)
    (log1 : List Event)
    (ha : (if c.accessToken = "" then Authenticate env c log else (none, c, log)) =
      (none, c1, log1)) :
    (∃ e, UpdatePlaybackStatus env c event log = (some e, c1, log1)) ∨
    ∃ q out, q.url = Sprintf "%s/Sessions/Playing/Progress" [c1.serverUrl] ∧
      ((∃ e t, out = HttpOutcome.transportError t ∧
          UpdatePlaybackStatus env c event log =
            (some e, c1, log1 ++ [Event.roundTrip q out])) ∨
        (∃ s b, out = HttpOutcome.response s b ∧ (s ≠ 200 ∧ s ≠ 204) ∧
          UpdatePlaybackStatus env c event log =
            (some (GoError.text (Sprintf "update playback status failed with code: %d"
                [toString s])),
              { c1 with accessToken := "" }, log1 ++ [Event.roundTrip q out])) ∨
        (∃ s b, out = HttpOutcome.response s b ∧ (s = 200 ∨ s = 204) ∧
          UpdatePlaybackStatus env c event log =
            (none, c1, log1 ++ [Event.roundTrip q out]))) := by
  unfold UpdatePlaybackStatus
  simp only [ha]
  split
  · left
    exact ⟨_, rfl⟩
  · split
    · left
      exact ⟨_, rfl⟩
    · right
      split
      · rename_i t ht
        refine ⟨_, _, ?_, Or.inl ⟨_, t, ht, rfl⟩⟩
        exact setCommonHeaders_url c1 _
      · rename_i s b hb
        split
        · rename_i hs
          refine ⟨_, _, ?_, Or.inr (Or.inl ⟨s, b, hb, hs, rfl⟩)⟩
          exact setCommonHeaders_url c1 _
        · rename_i hs
          refine ⟨_, _, ?_, Or.inr (Or.inr ⟨s, b, hb, ?_, rfl⟩)⟩
          · exact setCommonHeaders_url c1 _
          · by_cases h200 : s = 200
            · exact Or.inl h200
            · right
              by_contra h204
              exact hs ⟨h200, h204⟩

/-- The trace one call of `UpdatePlaybackStatus` adds when it starts with an
empty accessToken. -/
theorem UpdatePlaybackStatus_trace_of_empty_token (env : Env) (c : JellyPotClient)
    (event : PlaybackStatusEvent) (log : List Event) (h : c.accessToken = "") :
    ∃ pre post,
      (Authenticate env c log).2.2 = log ++ [Event.authenticate] ++ pre ∧
      (UpdatePlaybackStatus env c event log).2.2 =
        log ++ [Event.authenticate] ++ pre ++ post ∧
      Event.authenticate ∉ pre ++ post ∧
      pre.length ≤ 1 ∧
      (∀ ev ∈ pre, ∃ q out, ev = Event.roundTrip q out ∧
        q.url = Sprintf "%s/Users/AuthenticateByName" [c.serverUrl]) ∧
      post.length ≤ 1 ∧
      (∀ ev ∈ post, ∃ q out, ev = Event.roundTrip q out ∧
        q.url = Sprintf "%s/Sessions/Playing/Progress" [c.serverUrl]) ∧
      ((Authenticate env c log).1 = none → pre.length = 1) ∧
      (post ≠ [] → pre.length = 1) ∧
      (∀ e, (Authenticate env c log).1 = some e →
        UpdatePlaybackStatus env c event log = Authenticate env c log ∧ post = []) := by
  have ha : (if c.accessToken = "" then Authenticate env c log else (none, c, log)) =
      Authenticate env c log := by simp [h]
  rcases Authenticate_cases env c log with ⟨e, he⟩ | ⟨q, out, hq, ⟨e, he, -⟩ |
    ⟨e, b, err, -, -, he⟩ | ⟨b, a, -, -, he⟩⟩
  · have hu := UpdatePlaybackStatus_of_auth_error env c event log e _ _ (ha.trans he)
    refine ⟨[], [], ?_, ?_, ?_, ?_, ?_, ?_, ?_, ?_, ?_, ?_⟩
    · rw [he]; simp
    · rw [hu]; simp
    · simp
    · simp
    · simp
    · simp
    · simp
    · rw [he]; simp
    · simp
    · intro e2 _
      exact ⟨hu.trans he.symm, rfl⟩
  · have hu := UpdatePlaybackStatus_of_auth_error env c event log e _ _ (ha.trans he)
    refine ⟨[Event.roundTrip q out], [], ?_, ?_, ?_, ?_, ?_, ?_, ?_, ?_, ?_, ?_⟩
    · rw [he]
    · rw [hu]; simp
    · simp
    · simp
    · intro ev hev
      simp only [List.mem_singleton] at hev
      exact ⟨q, out, hev, hq⟩
    · simp
    · simp
    · simp
    · simp
    · intro e2 _
      exact ⟨hu.trans he.symm, rfl⟩
  · have hu := UpdatePlaybackStatus_of_auth_error env c event log e _ _ (ha.trans he)
    refine ⟨[Event.roundTrip q out], [], ?_, ?_, ?_, ?_, ?_, ?_, ?_, ?_, ?_, ?_⟩
    · rw [he]
    · rw [hu]; simp
    · simp
    · simp
    · intro ev hev
      simp only [List.mem_singleton] at hev
      exact ⟨q, out, hev, hq⟩
    · simp
    · simp
    · simp
    · simp
    · intro e2 _
      exact ⟨hu.trans he.symm, rfl⟩
  · rcases UpdatePlaybackStatus_of_auth_ok env c event log _ _ (ha.trans he) with
      ⟨e, hu⟩ | ⟨qp, op, hqp, ⟨e, t, -, hu⟩ | ⟨s, b2, -, -, hu⟩ | ⟨s, b2, -, -, hu⟩⟩
    · refine ⟨[Event.roundTrip q out], [], ?_, ?_, ?_, ?_, ?_, ?_, ?_, ?_, ?_, ?_⟩
      · rw [he]
      · rw [hu]; simp
      · simp
      · simp
      · intro ev hev
        simp only [List.mem_singleton] at hev
        exact ⟨q, out, hev, hq⟩
      · simp
      · simp
      · simp
      · simp
      · intro e2 he2
        rw [he] at he2
        cases he2
    all_goals
      refine ⟨[Event.roundTrip q out], [Event.roundTrip qp op], ?_, ?_, ?_, ?_, ?_, ?_, ?_, ?_, ?_, ?_⟩
      · rw [he]
      · rw [hu]
      · simp
      · simp
      · intro ev hev
        simp only [List.mem_singleton] at hev
        exact ⟨q, out, hev, hq⟩
      · simp
      · intro ev hev
        simp only [List.mem_singleton] at hev
        exact ⟨qp, op, hev, hqp⟩
      · simp
      · simp
      · intro e2 he2
        rw [he] at he2
        cases he2


theorem setCommonHeaders_method (c : JellyPotClient) (req : Request) :
    (setCommonHeaders c req).method = req.method := by
  unfold setCommonHeaders
  split <;> rfl

theorem setCommonHeaders_body (c : JellyPotClient) (req : Request) :
    (setCommonHeaders c req).body = req.body := by
  unfold setCommonHeaders
  split <;> rfl

/-- When a library rejects the authentication request before it is sent,
`Authenticate` fails having done nothing but start. -/
theorem Authenticate_unbuilt (env : Env) (c : JellyPotClient) (log : List Event)
    (hb : ∀ body,
      env.marshalAuthRequest { Username := c.username, Password := c.password } =
        Except.ok body →
      env.NewRequest "POST" (Sprintf "%s/Users/AuthenticateByName" [c.serverUrl]) ≠ none) :
    ∃ e, Authenticate env c log = (some e, c, log ++ [Event.authenticate]) := by
  unfold Authenticate
  simp only []
  split
  · exact ⟨_, rfl⟩
  · rename_i body hbody
    split
    · exact ⟨_, rfl⟩
    · rename_i hn
      exact absurd hn (hb body hbody)

/-- When the authentication request is built, `Authenticate` sends it, once,
whatever comes back. -/
theorem Authenticate_trace_built (env : Env) (c : JellyPotClient) (log : List Event)
    (body : String)
    (hm : env.marshalAuthRequest { Username := c.username, Password := c.password } =
      Except.ok body)
    (hn : env.NewRequest "POST" (Sprintf "%s/Users/AuthenticateByName" [c.serverUrl]) = none) :
    ∃ qa : Request, qa.method = "POST" ∧
      qa.url = Sprintf "%s/Users/AuthenticateByName" [c.serverUrl] ∧
      qa.body = some body ∧
      (Authenticate env c log).2.2 =
        log ++ [Event.authenticate,
          Event.roundTrip qa (env.Do (log ++ [Event.authenticate]) qa)] := by
  refine ⟨Request.mk
      (setCommonHeaders c (Request.mk "POST"
        (Sprintf "%s/Users/AuthenticateByName" [c.serverUrl]) [] (some body))).method
      (setCommonHeaders c (Request.mk "POST"
        (Sprintf "%s/Users/AuthenticateByName" [c.serverUrl]) [] (some body))).url
      (headerSet (setCommonHeaders c (Request.mk "POST"
        (Sprintf "%s/Users/AuthenticateByName" [c.serverUrl]) [] (some body))).header
        "Content-Type" "application/json")
      (setCommonHeaders c (Request.mk "POST"
        (Sprintf "%s/Users/AuthenticateByName" [c.serverUrl]) [] (some body))).body,
    setCommonHeaders_method c _, setCommonHeaders_url c _, setCommonHeaders_body c _, ?_⟩
  unfold Authenticate
  simp only [hm, hn]
  split
  · simp
  · split
    · simp
    · split <;> simp

theorem Authenticate_keeps_identity (env : Env) (c : JellyPotClient) (log : List Event) :
    (Authenticate env c log).2.1.serverUrl = c.serverUrl ∧
      (Authenticate env c log).2.1.username = c.username ∧
      (Authenticate env c log).2.1.password = c.password := by
  rcases Authenticate_cases env c log with ⟨e, he⟩ | ⟨q, out, -, ⟨e, he, -⟩ |
    ⟨e, b, err, -, -, he⟩ | ⟨b, a, -, -, he⟩⟩ <;> rw [he] <;> exact ⟨rfl, rfl, rfl⟩

/-- When a library rejects the progress request before it is sent,
`UpdatePlaybackStatus` fails having sent nothing after its authentication
step. -/
theorem UpdatePlaybackStatus_unbuilt (env : Env) (c : JellyPotClient)
    (event : PlaybackStatusEvent) (log : List Event) (c1 : JellyPotClient)
    (log1 : List Event)
    (ha : (if c.accessToken = "" then Authenticate env c log else (none, c, log)) =
      (none, c1, log1))
    (hb : ∀ reqBody, env.marshalEvent event = Except.ok reqBody →
      env.NewRequest "POST" (Sprintf "%s/Sessions/Playing/Progress" [c1.serverUrl]) ≠ none) :
    ∃ e, UpdatePlaybackStatus env c event log = (some e, c1, log1) := by
  unfold UpdatePlaybackStatus
  simp only [ha]
  split
  · exact ⟨_, rfl⟩
  · rename_i reqBody hbody
    split
    · exact ⟨_, rfl⟩
    · rename_i hn
      exact absurd hn (hb reqBody hbody)

/-- When the progress request is built, `UpdatePlaybackStatus` sends it, once,
right after its authentication step, whatever comes back. -/
theorem UpdatePlaybackStatus_trace_built (env : Env) (c : JellyPotClient)
    (event : PlaybackStatusEvent) (log : List Event) (c1 : JellyPotClient)
    (log1 : List Event) (reqBody : String)
    (ha : (if c.accessToken = "" then Authenticate env c log else (none, c, log)) =
      (none, c1, log1))
    (hm : env.marshalEvent event = Except.ok reqBody)
    (hn : env.NewRequest "POST" (Sprintf "%s/Sessions/Playing/Progress" [c1.serverUrl]) =
      none) :
    ∃ qp : Request, qp.method = "POST" ∧
      qp.url = Sprintf "%s/Sessions/Playing/Progress" [c1.serverUrl] ∧
      qp.body = some reqBody ∧
      (UpdatePlaybackStatus env c event log).2.2 =
        log1 ++ [Event.roundTrip qp (env.Do log1 qp)] := by
  refine ⟨Request.mk
      (setCommonHeaders c1 (Request.mk "POST"
        (Sprintf "%s/Sessions/Playing/Progress" [c1.serverUrl]) [] (some reqBody))).method
      (setCommonHeaders c1 (Request.mk "POST"
        (Sprintf "%s/Sessions/Playing/Progress" [c1.serverUrl]) [] (some reqBody))).url
      (headerSet (setCommonHeaders c1 (Request.mk "POST"
        (Sprintf "%s/Sessions/Playing/Progress" [c1.serverUrl]) [] (some reqBody))).header
        "Content-Type" "application/json")
      (setCommonHeaders c1 (Request.mk "POST"
        (Sprintf "%s/Sessions/Playing/Progress" [c1.serverUrl]) [] (some reqBody))).body,
    setCommonHeaders_method c1 _, setCommonHeaders_url c1 _, setCommonHeaders_body c1 _, ?_⟩
  unfold UpdatePlaybackStatus
  simp only [ha, hm, hn]
  split
  · simp
  · split <;> simp

/-- A progress round trip in the trace shows that `http.NewRequest` accepted
the progress URL. -/
theorem UpdatePlaybackStatus_sent_built (env : Env) (c : JellyPotClient)
    (event : PlaybackStatusEvent) (log : List Event) (c1 : JellyPotClient)
    (log1 : List Event) (q : Request) (out : HttpOutcome)
    (ha : (if c.accessToken = "" then Authenticate env c log else (none, c, log)) =
      (none, c1, log1))
    (hs : (UpdatePlaybackStatus env c event log).2.2 = log1 ++ [Event.roundTrip q out]) :
    env.NewRequest "POST" (Sprintf "%s/Sessions/Playing/Progress" [c1.serverUrl]) = none := by
  by_contra hne
  obtain ⟨e, he⟩ := UpdatePlaybackStatus_unbuilt env c event log c1 log1 ha (fun _ _ => hne)
  rw [he] at hs
  simp at hs

/-- One call of `UpdatePlaybackStatus` that starts with an empty accessToken,
told apart by whether the libraries let the two requests be built. -/
theorem UpdatePlaybackStatus_run_of_empty_token (env : Env) (c : JellyPotClient)
    (event : PlaybackStatusEvent) (log : List Event) (h : c.accessToken = "") :
    (∃ tail,
      (UpdatePlaybackStatus env c event log).2.2 = log ++ Event.authenticate :: tail ∧
      Event.authenticate ∉ tail) ∧
    ((∀ body,
        env.marshalAuthRequest { Username := c.username, Password := c.password } =
          Except.ok body →
        env.NewRequest "POST" (Sprintf "%s/Users/AuthenticateByName" [c.serverUrl]) ≠ none) →
      UpdatePlaybackStatus env c event log = Authenticate env c log ∧
      (UpdatePlaybackStatus env c event log).2.2 = log ++ [Event.authenticate] ∧
      ∃ e, (UpdatePlaybackStatus env c event log).1 = some e) ∧
    (∀ body,
      env.marshalAuthRequest { Username := c.username, Password := c.password } =
        Except.ok body →
      env.NewRequest "POST" (Sprintf "%s/Users/AuthenticateByName" [c.serverUrl]) = none →
      ∃ qa : Request, qa.method = "POST" ∧
        qa.url = Sprintf "%s/Users/AuthenticateByName" [c.serverUrl] ∧
        qa.body = some body ∧
        (Authenticate env c log).2.2 =
          log ++ [Event.authenticate,
            Event.roundTrip qa (env.Do (log ++ [Event.authenticate]) qa)] ∧
        (∀ e, (Authenticate env c log).1 = some e →
          UpdatePlaybackStatus env c event log = Authenticate env c log) ∧
        ((Authenticate env c log).1 = none →
          (∀ reqBody, env.marshalEvent event = Except.ok reqBody →
            env.NewRequest "POST" (Sprintf "%s/Sessions/Playing/Progress" [c.serverUrl]) =
              none →
            ∃ qp : Request, qp.method = "POST" ∧
              qp.url = Sprintf "%s/Sessions/Playing/Progress" [c.serverUrl] ∧
              qp.body = some reqBody ∧
              (UpdatePlaybackStatus env c event log).2.2 =
                (Authenticate env c log).2.2 ++
                  [Event.roundTrip qp (env.Do (Authenticate env c log).2.2 qp)]) ∧
          ((∀ reqBody, env.marshalEvent event = Except.ok reqBody →
              env.NewRequest "POST" (Sprintf "%s/Sessions/Playing/Progress" [c.serverUrl]) ≠
                none) →
            (UpdatePlaybackStatus env c event log).2.2 = (Authenticate env c log).2.2 ∧
            ∃ e, (UpdatePlaybackStatus env c event log).1 = some e))) := by
  have ha : (if c.accessToken = "" then Authenticate env c log else (none, c, log)) =
      Authenticate env c log := by simp [h]
  refine ⟨?_, ?_, ?_⟩
  · obtain ⟨pre, post, -, h2, h3, -⟩ :=
      UpdatePlaybackStatus_trace_of_empty_token env c event log h
    refine ⟨pre ++ post, ?_, h3⟩
    rw [h2]
    simp
  · intro hb
    obtain ⟨e, he⟩ := Authenticate_unbuilt env c log hb
    have hu := UpdatePlaybackStatus_of_auth_error env c event log e _ _ (ha.trans he)
    refine ⟨hu.trans he.symm, ?_, e, ?_⟩
    · rw [hu]
    · rw [hu]
  · intro body hm hn
    obtain ⟨qa, hq1, hq2, hq3, hA⟩ := Authenticate_trace_built env c log body hm hn
    refine ⟨qa, hq1, hq2, hq3, hA, ?_, ?_⟩
    · intro e he
      have hAe : Authenticate env c log =
          (some e, (Authenticate env c log).2.1, (Authenticate env c log).2.2) :=
        Prod.ext he rfl
      have hu := UpdatePlaybackStatus_of_auth_error env c event log e _ _ (ha.trans hAe)
      exact hu.trans hAe.symm
    · intro hnone
      have hAn : Authenticate env c log =
          (none, (Authenticate env c log).2.1, (Authenticate env c log).2.2) :=
        Prod.ext hnone rfl
      have hsrv := (Authenticate_keeps_identity env c log).1
      constructor
      · intro reqBody hme hne
        rw [← hsrv] at hne
        obtain ⟨qp, hp1, hp2, hp3, hU⟩ := UpdatePlaybackStatus_trace_built env c event log
          _ _ reqBody (ha.trans hAn) hme hne
        rw [hsrv] at hp2
        exact ⟨qp, hp1, hp2, hp3, hU⟩
      · intro hb
        obtain ⟨e, he⟩ := UpdatePlaybackStatus_unbuilt env c event log _ _ (ha.trans hAn)
          (by
            intro reqBody hme
            rw [hsrv]
            exact hb reqBody hme)
        refine ⟨?_, e, ?_⟩
        · rw [he]
        · rw [he]

/-- A successful `Authenticate` shows that the libraries let its request be
built. -/
theorem Authenticate_ok_built (env : Env) (c : JellyPotClient) (log : List Event)
    (hok : (Authenticate env c log).1 = none) :
    ∃ body,
      env.marshalAuthRequest { Username := c.username, Password := c.password } =
        Except.ok body ∧
      env.NewRequest "POST" (Sprintf "%s/Users/AuthenticateByName" [c.serverUrl]) = none := by
  by_contra hne
  have hb : ∀ body,
      env.marshalAuthRequest { Username := c.username, Password := c.password } =
        Except.ok body →
      env.NewRequest "POST" (Sprintf "%s/Users/AuthenticateByName" [c.serverUrl]) ≠ none := by
    intro body hm hn
    exact hne ⟨body, hm, hn⟩
  obtain ⟨e, he⟩ := Authenticate_unbuilt env c log hb
  rw [he] at hok
  cases hok

/-- C3 as stated fails: the client `rejectedUrlClient` has an empty
accessToken, and one call of `UpdatePlaybackStatus` performs no Authenticate
request at all, not exactly one: `http.NewRequest` rejects the URL, so
`Authenticate` returns before `httpClient.Do` and the trace of the call holds
the entry into `Authenticate` and no round trip. -/
theorem UpdatePlaybackStatus_sends_nothing_on_rejected_url :
    rejectedUrlClient.accessToken = "" ∧
      UpdatePlaybackStatus happyEnv rejectedUrlClient sampleEvent [] =
        (some (GoError.wrap "failed to create HTTP request: %w"
            (GoError.text "net/url: invalid control character in URL")),
          rejectedUrlClient, [Event.authenticate]) ∧
      ∀ q out, Event.roundTrip q out ∉
        (UpdatePlaybackStatus happyEnv rejectedUrlClient sampleEvent []).2.2 := by
  have h : UpdatePlaybackStatus happyEnv rejectedUrlClient sampleEvent [] =
      (some (GoError.wrap "failed to create HTTP request: %w"
          (GoError.text "net/url: invalid control character in URL")),
        rejectedUrlClient, [Event.authenticate]) := by
    decide
  refine ⟨rfl, h, ?_⟩
  intro q out
  rw [h]
  simp

/-- C3 amended: for every client whose accessToken is empty and every event,
one call of `UpdatePlaybackStatus` enters `Authenticate` exactly once, before
anything else. If that `Authenticate` fails, `UpdatePlaybackStatus` returns
the same error in the same state with the same trace: no progress request is
issued. When the authentication request cannot be built (`json.Marshal` or
`http.NewRequest` rejects it) nothing is sent at all. When it can be built,
exactly one Authenticate request is performed, first; and when that
`Authenticate` succeeds, the progress request is performed right after it,
once, if it can be built, and nothing more is sent if it cannot. -/
theorem UpdatePlaybackStatus_authenticates_first (env : Env) (c : JellyPotClient)
    (event : PlaybackStatusEvent) (log : List Event) (h : c.accessToken = "") :
    (∃ tail,
      (UpdatePlaybackStatus env c event log).2.2 = log ++ Event.authenticate :: tail ∧
      Event.authenticate ∉ tail) ∧
    (∀ e, (Authenticate env c log).1 = some e →
      UpdatePlaybackStatus env c event log = Authenticate env c log) ∧
    ((∀ body,
        env.marshalAuthRequest { Username := c.username, Password := c.password } =
          Except.ok body →
        env.NewRequest "POST" (Sprintf "%s/Users/AuthenticateByName" [c.serverUrl]) ≠ none) →
      (UpdatePlaybackStatus env c event log).2.2 = log ++ [Event.authenticate] ∧
      ∃ e, (UpdatePlaybackStatus env c event log).1 = some e) ∧
    (∀ body,
      env.marshalAuthRequest { Username := c.username, Password := c.password } =
        Except.ok body →
      env.NewRequest "POST" (Sprintf "%s/Users/AuthenticateByName" [c.serverUrl]) = none →
      ∃ qa : Request, qa.method = "POST" ∧
        qa.url = Sprintf "%s/Users/AuthenticateByName" [c.serverUrl] ∧
        qa.body = some body ∧
        (Authenticate env c log).2.2 =
          log ++ [Event.authenticate,
            Event.roundTrip qa (env.Do (log ++ [Event.authenticate]) qa)] ∧
        ((Authenticate env c log).1 = none →
          (∀ reqBody, env.marshalEvent event = Except.ok reqBody →
            env.NewRequest "POST" (Sprintf "%s/Sessions/Playing/Progress" [c.serverUrl]) =
              none →
            ∃ qp : Request, qp.method = "POST" ∧
              qp.url = Sprintf "%s/Sessions/Playing/Progress" [c.serverUrl] ∧
              qp.body = some reqBody ∧
              (UpdatePlaybackStatus env c event log).2.2 =
                (Authenticate env c log).2.2 ++
                  [Event.roundTrip qp (env.Do (Authenticate env c log).2.2 qp)]) ∧
          ((∀ reqBody, env.marshalEvent event = Except.ok reqBody →
              env.NewRequest "POST" (Sprintf "%s/Sessions/Playing/Progress" [c.serverUrl]) ≠
                none) →
            (UpdatePlaybackStatus env c event log).2.2 = (Authenticate env c log).2.2 ∧
            ∃ e, (UpdatePlaybackStatus env c event log).1 = some e))) := by
  obtain ⟨h1, h2, h3⟩ := UpdatePlaybackStatus_run_of_empty_token env c event log h
  refine ⟨h1, ?_, ?_, ?_⟩
  · intro e he
    have ha : (if c.accessToken = "" then Authenticate env c log else (none, c, log)) =
        Authenticate env c log := by simp [h]
    have hAe : Authenticate env c log =
        (some e, (Authenticate env c log).2.1, (Authenticate env c log).2.2) :=
      Prod.ext he rfl
    exact (UpdatePlaybackStatus_of_auth_error env c event log e _ _ (ha.trans hAe)).trans
      hAe.symm
  · intro hb
    exact (h2 hb).2
  · intro body hm hn
    obtain ⟨qa, hq1, hq2, hq3, hA, -, hok⟩ := h3 body hm hn
    exact ⟨qa, hq1, hq2, hq3, hA, hok⟩

/-- C3 amended, on `happyEnv` with a fresh client: the call enters
`Authenticate`, sends the authentication request, which is answered with 200,
and then the progress request, which is answered with 204. -/
theorem UpdatePlaybackStatus_authenticates_first_witness :
    freshClient.accessToken = "" ∧
      ∃ qa qp : Request,
        qa.url = "http://jf/Users/AuthenticateByName" ∧
        qp.url = "http://jf/Sessions/Playing/Progress" ∧
        (UpdatePlaybackStatus happyEnv freshClient sampleEvent []).2.2 =
          [Event.authenticate,
            Event.roundTrip qa (HttpOutcome.response 200 "auth-ok"),
            Event.roundTrip qp (HttpOutcome.response 204 "")] := by
  refine ⟨rfl, ?_⟩
  obtain ⟨qa, hq1, hq2, -, hA, hok⟩ :=
    (UpdatePlaybackStatus_authenticates_first happyEnv freshClient sampleEvent [] rfl).2.2.2
      "user:secret" rfl rfl
  obtain ⟨qp, hp1, hp2, -, hU⟩ := (hok rfl).1 "timeupdate" rfl rfl
  have hqa : qa.url = "http://jf/Users/AuthenticateByName" := by
    rw [hq2]
    decide
  have hqp : qp.url = "http://jf/Sessions/Playing/Progress" := by
    rw [hp2]
    decide
  have hda : ∀ l, happyEnv.Do l qa = HttpOutcome.response 200 "auth-ok" := by
    intro l
    simp [happyEnv, scriptedEnv, hq1, hqa]
  have hdp : ∀ l, happyEnv.Do l qp = HttpOutcome.response 204 "" := by
    intro l
    simp [happyEnv, scriptedEnv, hp1, hqp]
  refine ⟨qa, qp, hqa, hqp, ?_⟩
  rw [hU, hA, hda, hdp]
  rfl

/-- C4: for every client state and event, if within a call of
`UpdatePlaybackStatus` the request to the progress URL is answered with a
status s other than 200 and 204 (so for every s that is not 2xx), the call
returns the error "update playback status failed with code: s", leaves
accessToken empty, and sends nothing to the progress
URL besides that one request, which is the last thing it does; and the very
next call of `UpdatePlaybackStatus` starts by entering `Authenticate`, once,
and any progress request of that call comes after the round trip of that
`Authenticate`. In full, for the next call: once `json.Marshal` and
`http.NewRequest` have let the authentication request be built (as they have
whenever the failed call itself started without a token), that request is
sent first, exactly once; if that `Authenticate` fails the call ends there
with its error and no progress request; if it succeeds, the progress request
is sent right after it, once, for every event that marshals, and nothing more
is sent for an event that does not. -/
theorem UpdatePlaybackStatus_rejected (env : Env) (c : JellyPotClient)
    (event : PlaybackStatusEvent) (log new : List Event) (q : Request) (s : Int) (b : String)
    (hnew : (UpdatePlaybackStatus env c event log).2.2 = log ++ new)
    (hmem : Event.roundTrip q (HttpOutcome.response s b) ∈ new)
    (hurl : q.url = Sprintf "%s/Sessions/Playing/Progress" [c.serverUrl])
    (hs : s ≠ 200 ∧ s ≠ 204) :
    (UpdatePlaybackStatus env c event log).1 =
      some (GoError.text (Sprintf "update playback status failed with code: %d"
        [toString s])) ∧
    (UpdatePlaybackStatus env c event log).2.1.accessToken = "" ∧
    (∃ before, new = before ++ [Event.roundTrip q (HttpOutcome.response s b)] ∧
      ∀ q2 out2, Event.roundTrip q2 out2 ∈ before →
        q2.url ≠ Sprintf "%s/Sessions/Playing/Progress" [c.serverUrl]) ∧
    (∀ event2, ∃ pre post,
      (UpdatePlaybackStatus env (UpdatePlaybackStatus env c event log).2.1 event2
          (UpdatePlaybackStatus env c event log).2.2).2.2 =
        (UpdatePlaybackStatus env c event log).2.2 ++ [Event.authenticate] ++ pre ++ post ∧
      Event.authenticate ∉ pre ++ post ∧
      pre.length ≤ 1 ∧
      (∀ ev ∈ pre, ∃ q2 out2, ev = Event.roundTrip q2 out2 ∧
        q2.url = Sprintf "%s/Users/AuthenticateByName" [c.serverUrl]) ∧
      post.length ≤ 1 ∧
      (∀ ev ∈ post, ∃ q2 out2, ev = Event.roundTrip q2 out2 ∧
        q2.url = Sprintf "%s/Sessions/Playing/Progress" [c.serverUrl]) ∧
      (post ≠ [] → pre.length = 1)) ∧
    (∀ event2 body,
      env.marshalAuthRequest { Username := c.username, Password := c.password } =
        Except.ok body →
      env.NewRequest "POST" (Sprintf "%s/Users/AuthenticateByName" [c.serverUrl]) = none →
      ∃ qa : Request, qa.method = "POST" ∧
        qa.url = Sprintf "%s/Users/AuthenticateByName" [c.serverUrl] ∧
        qa.body = some body ∧
        (Authenticate env (UpdatePlaybackStatus env c event log).2.1
            (UpdatePlaybackStatus env c event log).2.2).2.2 =
          (UpdatePlaybackStatus env c event log).2.2 ++
            [Event.authenticate,
              Event.roundTrip qa
                (env.Do ((UpdatePlaybackStatus env c event log).2.2 ++ [Event.authenticate])
                  qa)] ∧
        (∀ e, (Authenticate env (UpdatePlaybackStatus env c event log).2.1
            (UpdatePlaybackStatus env c event log).2.2).1 = some e →
          UpdatePlaybackStatus env (UpdatePlaybackStatus env c event log).2.1 event2
              (UpdatePlaybackStatus env c event log).2.2 =
            Authenticate env (UpdatePlaybackStatus env c event log).2.1
              (UpdatePlaybackStatus env c event log).2.2) ∧
        ((Authenticate env (UpdatePlaybackStatus env c event log).2.1
            (UpdatePlaybackStatus env c event log).2.2).1 = none →
          (∀ reqBody, env.marshalEvent event2 = Except.ok reqBody →
            ∃ qp : Request, qp.method = "POST" ∧
              qp.url = Sprintf "%s/Sessions/Playing/Progress" [c.serverUrl] ∧
              qp.body = some reqBody ∧
              (UpdatePlaybackStatus env (UpdatePlaybackStatus env c event log).2.1 event2
                  (UpdatePlaybackStatus env c event log).2.2).2.2 =
                (Authenticate env (UpdatePlaybackStatus env c event log).2.1
                    (UpdatePlaybackStatus env c event log).2.2).2.2 ++
                  [Event.roundTrip qp
                    (env.Do (Authenticate env (UpdatePlaybackStatus env c event log).2.1
                      (UpdatePlaybackStatus env c event log).2.2).2.2 qp)]) ∧
          ((∀ reqBody, env.marshalEvent event2 ≠ Except.ok reqBody) →
            (UpdatePlaybackStatus env (UpdatePlaybackStatus env c event log).2.1 event2
                (UpdatePlaybackStatus env c event log).2.2).2.2 =
              (Authenticate env (UpdatePlaybackStatus env c event log).2.1
                (UpdatePlaybackStatus env c event log).2.2).2.2 ∧
            ∃ e, (UpdatePlaybackStatus env (UpdatePlaybackStatus env c event log).2.1 event2
                (UpdatePlaybackStatus env c event log).2.2).1 = some e))) ∧
    (c.accessToken = "" →
      ∃ body,
        env.marshalAuthRequest { Username := c.username, Password := c.password } =
          Except.ok body ∧
        env.NewRequest "POST" (Sprintf "%s/Users/AuthenticateByName" [c.serverUrl]) =
          none) := by
  -- the next call in full, from any state with an empty token and the same identity
  have hnext2 : ∀ (c2 : JellyPotClient) (log2 : List Event), c2.accessToken = "" →
      c2.serverUrl = c.serverUrl → c2.username = c.username → c2.password = c.password →
      env.NewRequest "POST" (Sprintf "%s/Sessions/Playing/Progress" [c.serverUrl]) = none →
      ∀ event2 body,
        env.marshalAuthRequest { Username := c.username, Password := c.password } =
          Except.ok body →
        env.NewRequest "POST" (Sprintf "%s/Users/AuthenticateByName" [c.serverUrl]) = none →
        ∃ qa : Request, qa.method = "POST" ∧
          qa.url = Sprintf "%s/Users/AuthenticateByName" [c.serverUrl] ∧
          qa.body = some body ∧
          (Authenticate env c2 log2).2.2 =
            log2 ++ [Event.authenticate,
              Event.roundTrip qa (env.Do (log2 ++ [Event.authenticate]) qa)] ∧
          (∀ e, (Authenticate env c2 log2).1 = some e →
            UpdatePlaybackStatus env c2 event2 log2 = Authenticate env c2 log2) ∧
          ((Authenticate env c2 log2).1 = none →
            (∀ reqBody, env.marshalEvent event2 = Except.ok reqBody →
              ∃ qp : Request, qp.method = "POST" ∧
                qp.url = Sprintf "%s/Sessions/Playing/Progress" [c.serverUrl] ∧
                qp.body = some reqBody ∧
                (UpdatePlaybackStatus env c2 event2 log2).2.2 =
                  (Authenticate env c2 log2).2.2 ++
                    [Event.roundTrip qp (env.Do (Authenticate env c2 log2).2.2 qp)]) ∧
            ((∀ reqBody, env.marshalEvent event2 ≠ Except.ok reqBody) →
              (UpdatePlaybackStatus env c2 event2 log2).2.2 = (Authenticate env c2 log2).2.2 ∧
              ∃ e, (UpdatePlaybackStatus env c2 event2 log2).1 = some e)) := by
    intro c2 log2 ht hsrv husr hpwd hprog event2 body hm hn
    have hrun := (UpdatePlaybackStatus_run_of_empty_token env c2 event2 log2 ht).2.2
    rw [hsrv, husr, hpwd] at hrun
    obtain ⟨qa, hq1, hq2, hq3, hA, hfail, hok⟩ := hrun body hm hn
    refine ⟨qa, hq1, hq2, hq3, hA, hfail, ?_⟩
    intro hnone
    refine ⟨fun reqBody hme => (hok hnone).1 reqBody hme hprog, ?_⟩
    intro hnever
    exact (hok hnone).2 (fun reqBody hme => absurd hme (hnever reqBody))
  -- the next call, from any state with an empty token and the same server URL
  have hnext : ∀ (c2 : JellyPotClient) (log2 : List Event), c2.accessToken = "" →
      c2.serverUrl = c.serverUrl → ∀ event2, ∃ pre post,
        (UpdatePlaybackStatus env c2 event2 log2).2.2 =
          log2 ++ [Event.authenticate] ++ pre ++ post ∧
        Event.authenticate ∉ pre ++ post ∧
        pre.length ≤ 1 ∧
        (∀ ev ∈ pre, ∃ q2 out2, ev = Event.roundTrip q2 out2 ∧
          q2.url = Sprintf "%s/Users/AuthenticateByName" [c.serverUrl]) ∧
        post.length ≤ 1 ∧
        (∀ ev ∈ post, ∃ q2 out2, ev = Event.roundTrip q2 out2 ∧
          q2.url = Sprintf "%s/Sessions/Playing/Progress" [c.serverUrl]) ∧
        (post ≠ [] → pre.length = 1) := by
    intro c2 log2 ht hsrv event2
    obtain ⟨pre, post, -, h2, h3, h4, h5, h6, h7, -, h9, -⟩ :=
      UpdatePlaybackStatus_trace_of_empty_token env c2 event2 log2 ht
    rw [hsrv] at h5 h7
    exact ⟨pre, post, h2, h3, h4, h5, h6, h7, h9⟩
  by_cases htok : c.accessToken = ""
  · have ha : (if c.accessToken = "" then Authenticate env c log else (none, c, log)) =
        Authenticate env c log := by simp [htok]
    rcases Authenticate_cases env c log with ⟨e, he⟩ | ⟨qa, oa, hqa, ⟨e, he, hoa⟩ |
      ⟨e, ba, err, hoa, -, he⟩ | ⟨ba, a, hoa, -, he⟩⟩
    · have hu := UpdatePlaybackStatus_of_auth_error env c event log e _ _ (ha.trans he)
      rw [hu] at hnew
      simp only [List.append_cancel_left_eq] at hnew
      subst hnew
      simp at hmem
    · have hu := UpdatePlaybackStatus_of_auth_error env c event log e _ _ (ha.trans he)
      rw [hu] at hnew ⊢
      simp only [List.append_assoc, List.append_cancel_left_eq, List.singleton_append] at hnew
      subst hnew
      simp only [List.mem_cons, List.mem_singleton, Event.roundTrip.injEq, false_or,
        List.not_mem_nil, or_false, reduceCtorEq] at hmem
      obtain ⟨hq, -⟩ := hmem
      rw [hq, hqa] at hurl
      exact absurd hurl (authUrl_ne_progressUrl c.serverUrl)
    · have hu := UpdatePlaybackStatus_of_auth_error env c event log e _ _ (ha.trans he)
      rw [hu] at hnew
      simp only [List.append_assoc, List.append_cancel_left_eq, List.singleton_append] at hnew
      subst hnew
      simp only [List.mem_cons, List.mem_singleton, Event.roundTrip.injEq, false_or,
        List.not_mem_nil, or_false, reduceCtorEq] at hmem
      obtain ⟨-, ho⟩ := hmem
      rw [hoa] at ho
      simp only [HttpOutcome.response.injEq] at ho
      exact absurd ho.1 hs.1
    · have h200 : ∀ q2, Event.roundTrip q (HttpOutcome.response s b) ≠ Event.roundTrip q2 oa := by
        intro q2 h
        simp only [Event.roundTrip.injEq] at h
        have ho := h.2
        rw [hoa] at ho
        simp only [HttpOutcome.response.injEq] at ho
        exact hs.1 ho.1
      rcases UpdatePlaybackStatus_of_auth_ok env c event log _ _ (ha.trans he) with
        ⟨e, hu⟩ | ⟨qp, op, hqp, ⟨e, t, hop, hu⟩ | ⟨s2, b2, hop, hs2, hu⟩ |
          ⟨s2, b2, hop, hs2, hu⟩⟩
      · rw [hu] at hnew
        simp only [List.append_assoc, List.append_cancel_left_eq, List.singleton_append] at hnew
        subst hnew
        simp only [List.mem_cons, List.mem_singleton, false_or, List.not_mem_nil, or_false,
          reduceCtorEq] at hmem
        exact absurd hmem (h200 qa)
      · rw [hu] at hnew
        simp only [List.append_assoc, List.append_cancel_left_eq, List.singleton_append] at hnew
        subst hnew
        simp only [List.mem_append, List.mem_cons, List.mem_singleton, false_or,
          List.not_mem_nil, or_false, reduceCtorEq] at hmem
        rcases hmem with hm | hm
        · exact absurd hm (h200 qa)
        · simp only [Event.roundTrip.injEq] at hm
          rw [hop] at hm
          cases hm.2
      · have hprog := UpdatePlaybackStatus_sent_built env c event log _ _ qp op
          (ha.trans he) (by rw [hu])
        rw [hu] at hnew ⊢
        simp only [List.append_assoc, List.append_cancel_left_eq, List.singleton_append] at hnew
        subst hnew
        simp only [List.mem_append, List.mem_cons, List.mem_singleton, false_or,
          List.not_mem_nil, or_false, reduceCtorEq] at hmem
        rcases hmem with hm | hm
        · exact absurd hm (h200 qa)
        · have hm2 := hm
          simp only [Event.roundTrip.injEq] at hm2
          rw [hop] at hm2
          have hss : s = s2 := by
            have := hm2.2
            simp only [HttpOutcome.response.injEq] at this
            exact this.1
          subst hss
          refine ⟨rfl, rfl, ⟨[Event.authenticate, Event.roundTrip qa oa], ?_, ?_⟩, ?_, ?_, ?_⟩
          · rw [hm]
          · intro q2 out2 h2
            simp only [List.mem_cons, List.mem_singleton, Event.roundTrip.injEq, false_or,
              List.not_mem_nil, or_false, reduceCtorEq] at h2
            rw [h2.1, hqa]
            exact authUrl_ne_progressUrl c.serverUrl
          · exact hnext _ _ rfl rfl
          · exact hnext2 _ _ rfl rfl rfl rfl hprog
          · intro _
            exact Authenticate_ok_built env c log (by rw [he])
      · rw [hu] at hnew
        simp only [List.append_assoc, List.append_cancel_left_eq, List.singleton_append] at hnew
        subst hnew
        simp only [List.mem_append, List.mem_cons, List.mem_singleton, false_or,
          List.not_mem_nil, or_false, reduceCtorEq] at hmem
        rcases hmem with hm | hm
        · exact absurd hm (h200 qa)
        · simp only [Event.roundTrip.injEq] at hm
          rw [hop] at hm
          have := hm.2
          simp only [HttpOutcome.response.injEq] at this
          rcases hs2 with h | h
          · exact absurd (this.1.trans h) hs.1
          · exact absurd (this.1.trans h) hs.2
  · have ha : (if c.accessToken = "" then Authenticate env c log else (none, c, log)) =
        (none, c, log) := by simp [htok]
    rcases UpdatePlaybackStatus_of_auth_ok env c event log _ _ ha with
      ⟨e, hu⟩ | ⟨qp, op, hqp, ⟨e, t, hop, hu⟩ | ⟨s2, b2, hop, hs2, hu⟩ |
        ⟨s2, b2, hop, hs2, hu⟩⟩
    · rw [hu] at hnew
      have : new = [] := by simpa using hnew.symm
      subst this
      simp at hmem
    · rw [hu] at hnew
      simp only [List.append_cancel_left_eq] at hnew
      subst hnew
      simp only [List.mem_singleton, Event.roundTrip.injEq] at hmem
      rw [hop] at hmem
      cases hmem.2
    · have hprog := UpdatePlaybackStatus_sent_built env c event log _ _ qp op ha
        (by rw [hu])
      rw [hu] at hnew ⊢
      simp only [List.append_cancel_left_eq] at hnew
      subst hnew
      simp only [List.mem_singleton] at hmem
      have hm2 := hmem
      simp only [Event.roundTrip.injEq] at hm2
      rw [hop] at hm2
      have hss : s = s2 := by
        have := hm2.2
        simp only [HttpOutcome.response.injEq] at this
        exact this.1
      subst hss
      refine ⟨rfl, rfl, ⟨[], ?_, ?_⟩, ?_, ?_, ?_⟩
      · rw [hmem]
        rfl
      · intro q2 out2 h2
        simp at h2
      · exact hnext _ _ rfl rfl
      · exact hnext2 _ _ rfl rfl rfl rfl hprog
      · intro h0
        exact absurd h0 htok
    · rw [hu] at hnew
      simp only [List.append_cancel_left_eq] at hnew
      subst hnew
      simp only [List.mem_singleton, Event.roundTrip.injEq] at hmem
      rw [hop] at hmem
      have := hmem.2
      simp only [HttpOutcome.response.injEq] at this
      rcases hs2 with h | h
      · exact absurd (this.1.trans h) hs.1
      · exact absurd (this.1.trans h) hs.2

/-- C4, on `expiredEnv`: the progress request of a client holding "T0" is
answered with 401; the call returns the error and clears the token; the next
call enters `Authenticate`, sends the authentication request, which is
answered with 200, and then sends the progress request again. -/
theorem UpdatePlaybackStatus_rejected_witness :
    (UpdatePlaybackStatus expiredEnv tokenClient sampleEvent []).1 =
        some (GoError.text "update playback status failed with code: 401") ∧
      (UpdatePlaybackStatus expiredEnv tokenClient sampleEvent []).2.1.accessToken = "" ∧
      ∃ q1 qa qp : Request,
        qa.url = "http://jf/Users/AuthenticateByName" ∧
        qp.url = "http://jf/Sessions/Playing/Progress" ∧
        (UpdatePlaybackStatus expiredEnv
            (UpdatePlaybackStatus expiredEnv tokenClient sampleEvent []).2.1 sampleEvent
            (UpdatePlaybackStatus expiredEnv tokenClient sampleEvent []).2.2).2.2 =
          [Event.roundTrip q1 (HttpOutcome.response 401 ""),
            Event.authenticate,
            Event.roundTrip qa (HttpOutcome.response 200 "auth-ok"),
            Event.roundTrip qp (HttpOutcome.response 401 "")] := by
  have h := UpdatePlaybackStatus_rejected expiredEnv tokenClient sampleEvent []
    (UpdatePlaybackStatus expiredEnv tokenClient sampleEvent []).2.2 _ 401 "" rfl
    (List.Mem.head _) rfl (by decide)
  refine ⟨h.1, h.2.1, ?_⟩
  obtain ⟨qa, hq1, hq2, -, hA, -, hok⟩ := h.2.2.2.2.1 sampleEvent "user:secret" rfl rfl
  obtain ⟨qp, hp1, hp2, -, hU⟩ := (hok rfl).1 "timeupdate" rfl
  have hqa : qa.url = "http://jf/Users/AuthenticateByName" := by
    rw [hq2]
    decide
  have hqp : qp.url = "http://jf/Sessions/Playing/Progress" := by
    rw [hp2]
    decide
  have hda : ∀ l, expiredEnv.Do l qa = HttpOutcome.response 200 "auth-ok" := by
    intro l
    simp [expiredEnv, scriptedEnv, hq1, hqa]
  have hdp : ∀ l, expiredEnv.Do l qp = HttpOutcome.response 401 "" := by
    intro l
    simp [expiredEnv, scriptedEnv, hp1, hqp]
  obtain ⟨q1, hfirst⟩ : ∃ q1, (UpdatePlaybackStatus expiredEnv tokenClient sampleEvent []).2.2 =
      [Event.roundTrip q1 (HttpOutcome.response 401 "")] := ⟨_, rfl⟩
  refine ⟨q1, qa, qp, hqa, hqp, ?_⟩
  rw [hU, hA, hda, hdp, hfirst]
  rfl

/-! ## Theorems: instance coordination -/

theorem StringToUTF16_EXIT : StringToUTF16 "EXIT" = some [69, 88, 73, 84, 0] := by
  decide

theorem ReadFile_length (buffer data : List Nat) :
    (ReadFile buffer data).1.length = buffer.length := by
  simp only [ReadFile, List.length_append, List.length_take, List.length_drop]
  omega

theorem unitsOfBytes_append_take : ∀ (a b : List Nat),
    (unitsOfBytes (a ++ b)).take (a.length / 2) = unitsOfBytes a
  | [], b => by simp [unitsOfBytes]
  | [x], b => by simp [unitsOfBytes]
  | lo :: hi :: rest, b => by
    have ih := unitsOfBytes_append_take rest b
    have hlen : (lo :: hi :: rest).length / 2 = rest.length / 2 + 1 := by
      simp only [List.length_cons]
      omega
    rw [hlen]
    simp only [List.cons_append, unitsOfBytes, List.take_succ_cons]
    exact congrArg (List.cons (lo % 256 + 256 * (hi % 256))) ih

/-- What the acceptor decodes after a read that fits the buffer depends on
the bytes read alone, not on what the buffer held before. -/
theorem received_units (buffer data : List Nat) (h : data.length ≤ buffer.length) :
    (unitsOfBytes (ReadFile buffer data).1).take ((ReadFile buffer data).2 / 2) =
      unitsOfBytes data := by
  have hn : min data.length buffer.length = data.length := Nat.min_eq_left h
  simp only [ReadFile, hn, List.take_length]
  exact unitsOfBytes_append_take data _

theorem listenLoop_head (buffer : List Nat) (script : List Connection) :
    (listenLoop buffer script).head? = some PipeAction.ConnectNamedPipe := by
  cases script with
  | nil => rfl
  | cons conn rest =>
    unfold listenLoop
    simp only []
    split
    · rfl
    · split
      · split <;> rfl
      · rfl

/-- C11: the payload `notifyExistingInstance` writes to the pipe is the ten
bytes of the UTF-16 encoding of "EXIT" with its terminating NUL; when the
acceptor, whatever its 4096-byte buffer held before, reads those bytes in
full, `UTF16ToString` over `bytesRead/2` code units yields exactly "EXIT" and
the acceptor takes the terminate branch (disconnect, then exit with code 0);
and for any payload read that decodes to a different string the acceptor does
not exit on that turn: it disconnects and the loop calls `ConnectNamedPipe`
again. -/
theorem exit_payload_terminates_acceptor :
    (∀ (os : PipeClient) (handle : Nat), os.createFile = Except.ok handle →
      notifyExistingInstance os =
        some ((true, os.writeFile handle [69, 0, 88, 0, 73, 0, 84, 0, 0, 0]),
          [PipeAction.CreateFile, PipeAction.WriteFile [69, 0, 88, 0, 73, 0, 84, 0, 0, 0],
            PipeAction.CloseHandle])) ∧
    (∀ (buffer : List Nat) (conn : Connection) (rest : List Connection),
      buffer.length = 4096 →
      (conn.connectErr = none ∨
        conn.connectErr = some (GoError.errno ERROR_PIPE_CONNECTED)) →
      conn.readErr = none →
      conn.data = [69, 0, 88, 0, 73, 0, 84, 0, 0, 0] →
      UTF16ToString ((unitsOfBytes (ReadFile buffer conn.data).1).take
          ((ReadFile buffer conn.data).2 / 2)) = "EXIT" ∧
        listenLoop buffer (conn :: rest) =
          [PipeAction.ConnectNamedPipe, PipeAction.ReadFile, PipeAction.DisconnectNamedPipe,
            PipeAction.Exit 0]) ∧
    (∀ (buffer : List Nat) (conn : Connection) (rest : List Connection),
      (conn.connectErr = none ∨
        conn.connectErr = some (GoError.errno ERROR_PIPE_CONNECTED)) →
      (conn.readErr = none ∨ conn.readErr = some (GoError.errno ERROR_MORE_DATA)) →
      UTF16ToString ((unitsOfBytes (ReadFile buffer conn.data).1).take
          ((ReadFile buffer conn.data).2 / 2)) ≠ "EXIT" →
      listenLoop buffer (conn :: rest) =
          PipeAction.ConnectNamedPipe :: PipeAction.ReadFile ::
            PipeAction.DisconnectNamedPipe :: listenLoop (ReadFile buffer conn.data).1 rest ∧
        (listenLoop (ReadFile buffer conn.data).1 rest).head? =
          some PipeAction.ConnectNamedPipe) := by
  refine ⟨?_, ?_, ?_⟩
  · intro os handle hc
    unfold notifyExistingInstance
    rw [hc, StringToUTF16_EXIT]
    rfl
  · intro buffer conn rest hlen hconn hread hdata
    have hfit : conn.data.length ≤ buffer.length := by
      rw [hdata, hlen]
      decide
    have hmsg : UTF16ToString ((unitsOfBytes (ReadFile buffer conn.data).1).take
        ((ReadFile buffer conn.data).2 / 2)) = "EXIT" := by
      rw [received_units buffer conn.data hfit, hdata]
      decide
    refine ⟨hmsg, ?_⟩
    have hgo : ¬ (conn.connectErr ≠ none ∧
        conn.connectErr ≠ some (GoError.errno ERROR_PIPE_CONNECTED)) := by
      rintro ⟨h1, h2⟩
      rcases hconn with h | h
      · exact h1 h
      · exact h2 h
    unfold listenLoop
    simp only [hgo, if_false, hread, true_or, if_true, hmsg]
  · intro buffer conn rest hconn hread hmsg
    have hgo : ¬ (conn.connectErr ≠ none ∧
        conn.connectErr ≠ some (GoError.errno ERROR_PIPE_CONNECTED)) := by
      rintro ⟨h1, h2⟩
      rcases hconn with h | h
      · exact h1 h
      · exact h2 h
    refine ⟨?_, listenLoop_head _ rest⟩
    conv => lhs; unfold listenLoop
    simp only [hgo, if_false, hread, if_true, hmsg]

/-- C11, on concrete runs: the new instance writes the ten bytes; an acceptor
that is sent them exits; an acceptor that is sent "PING" first goes round the
loop once more and exits on the second connection. -/
theorem exit_payload_terminates_acceptor_witness :
    notifyExistingInstance openPipe =
        some ((true, none),
          [PipeAction.CreateFile, PipeAction.WriteFile [69, 0, 88, 0, 73, 0, 84, 0, 0, 0],
            PipeAction.CloseHandle]) ∧
      listenForNewInstances [exitConnection] =
        [PipeAction.ConnectNamedPipe, PipeAction.ReadFile, PipeAction.DisconnectNamedPipe,
          PipeAction.Exit 0] ∧
      listenForNewInstances [pingConnection, exitConnection] =
        [PipeAction.ConnectNamedPipe, PipeAction.ReadFile, PipeAction.DisconnectNamedPipe,
          PipeAction.ConnectNamedPipe, PipeAction.ReadFile, PipeAction.DisconnectNamedPipe,
          PipeAction.Exit 0] := by
  have hbuf : (List.replicate 4096 0 : List Nat).length = 4096 := List.length_replicate _ _
  have hfit : pingConnection.data.length ≤ (List.replicate 4096 0 : List Nat).length := by
    rw [hbuf]
    decide
  have hping : UTF16ToString ((unitsOfBytes
      (ReadFile (List.replicate 4096 0) pingConnection.data).1).take
        ((ReadFile (List.replicate 4096 0) pingConnection.data).2 / 2)) ≠ "EXIT" := by
    rw [received_units _ _ hfit]
    decide
  have h1 := exit_payload_terminates_acceptor.1 openPipe 77 rfl
  have h2 := (exit_payload_terminates_acceptor.2.1 (List.replicate 4096 0) exitConnection []
    hbuf (Or.inl rfl) rfl rfl).2
  have h3 := (exit_payload_terminates_acceptor.2.2 (List.replicate 4096 0) pingConnection
    [exitConnection] (Or.inl rfl) (Or.inl rfl) hping).1
  have hbuf2 : (ReadFile (List.replicate 4096 0) pingConnection.data).1.length = 4096 := by
    rw [ReadFile_length, hbuf]
  have h4 := (exit_payload_terminates_acceptor.2.1
    (ReadFile (List.replicate 4096 0) pingConnection.data).1 exitConnection []
    hbuf2 (Or.inl rfl) rfl rfl).2
  refine ⟨h1, h2, ?_⟩
  unfold listenForNewInstances
  rw [h3, h4]

end JellyPotBridge
